import Mathlib

/-!
# ValiSPM: the Nebula interface headers

A shallow embedding of the declarations of `NebulaAPIs.h`, `NebulaLANAPIs.h` and
`TUTKGlobalAPIs.h`: the length constants, the record layouts and the login-state
enumeration are transcribed from the headers.  The headers declare the operations
but do not contain their bodies; where a property talks about what an operation
does, the operation is modelled from the specification and its header comment,
and the definition says so.
-/

namespace ValiSPM

/-! ## Strings and bytes -/

/-- A NUL-terminated C string, given by the characters before its terminator. -/
abbrev CString := List Char

/-- The C library `strlen`: the number of characters before the terminator. -/
def strlen (s : CString) : Nat := s.length

/-! ## NebulaAPIs.h: generic macro definitions (lines 53-66) -/

def MAX_PUBLIC_UDID_LENGTH : Nat := 40
def MAX_PIN_CODE_LENGTH : Nat := 9
def MAX_UDID_LENGTH : Nat := 106
def MAX_PROFILE_LENGTH : Nat := 45000
def MAX_REALM_LENGTH : Nat := 128
def MAX_NEBULA_PSK_LENGTH : Nat := 1024
def MAX_NEBULA_IDENTITY_LENGTH : Nat := 119
def MAX_NEBULA_SECRETID_LENGTH : Nat := 128

def NEBULA_MAX_SLEEP_ALIVE_PACKET_SIZE : Nat := 256

def INET6_ADDRSTRLEN : Nat := 46

/-! ## NebulaLANAPIs.h: generic macro definitions (line 42) -/

def MAX_DEVICE_NAME_LENGTH : Nat := 128

/-- A string respects a `MAX_*_LENGTH` constant when it has at most that many
characters.  The terminator is not counted: the headers declare every buffer
as `MAX_*_LENGTH + 1` with the remark that the NUL has to be included. -/
def withinLength (max : Nat) (s : CString) : Bool := decide (strlen s ≤ max)

/-- A string together with its terminating NUL fits a `char` array of `cap` bytes. -/
def fitsBuffer (cap : Nat) (s : CString) : Bool := decide (strlen s + 1 ≤ cap)

/-! ## NebulaAPIs.h: NebulaDeviceLoginState (lines 99-104) -/

inductive NebulaDeviceLoginState where
  | NEBULA_DEVLOGIN_ST_CONNECTED
  | NEBULA_DEVLOGIN_ST_DISCONNECTED
  | NEBULA_DEVLOGIN_ST_RETRYLOGIN
  deriving DecidableEq, Repr

/-- The integer value of each enumerator, as written in the header. -/
def NebulaDeviceLoginState.toNat : NebulaDeviceLoginState → Nat
  | NEBULA_DEVLOGIN_ST_CONNECTED => 1 <<< 0
  | NEBULA_DEVLOGIN_ST_DISCONNECTED => 1 <<< 1
  | NEBULA_DEVLOGIN_ST_RETRYLOGIN => 1 <<< 2

/-- The position of the bit an enumerator shifts the 1 to. -/
def NebulaDeviceLoginState.bit : NebulaDeviceLoginState → Nat
  | NEBULA_DEVLOGIN_ST_CONNECTED => 0
  | NEBULA_DEVLOGIN_ST_DISCONNECTED => 1
  | NEBULA_DEVLOGIN_ST_RETRYLOGIN => 2

/-- The mask of a collection of flags: their bitwise OR, starting from 0. -/
def loginStateMask (flags : List NebulaDeviceLoginState) : Nat :=
  flags.foldl (fun m f => m ||| f.toNat) 0

/-- The usual flag test on a mask: `(mask & flag) != 0`. -/
def hasFlag (mask : Nat) (f : NebulaDeviceLoginState) : Bool :=
  (mask &&& f.toNat) != 0

/-! ## The identifier limits as the specification words them -/

namespace Spec

/-- Specification, section 6: UDID at most 40 chars. -/
def udidLimit : Nat := 40
/-- Specification, section 6: PIN at most 8 chars. -/
def pinLimit : Nat := 8
/-- Specification, section 6: PSK at most 1024 chars. -/
def pskLimit : Nat := 1024
/-- Specification, section 6: identity at most 119 chars. -/
def identityLimit : Nat := 119
/-- Specification, section 6: secret ID at most 128 chars. -/
def secretIdLimit : Nat := 128
/-- Specification, section 3: device name at most 128 chars. -/
def deviceNameLimit : Nat := 128

/-- A string is within a limit of the specification: at most that many chars. -/
def within (limit : Nat) (s : CString) : Prop := s.length ≤ limit

instance (limit : Nat) (s : CString) : Decidable (within limit s) := by
  unfold within; infer_instance

end Spec

/-! ## NebulaAPIs.h: NebulaSocketProtocol (lines 78-81) -/

inductive NebulaSocketProtocol where
  | NEBULA_PROTO_TCP
  | NEBULA_PROTO_UDP
  deriving DecidableEq, Repr

/-- The enumerator an integer argument denotes, if any: TCP is 0 and UDP is 1. -/
def NebulaSocketProtocol.ofInt (n : Int) : Option NebulaSocketProtocol :=
  if n = 0 then some NEBULA_PROTO_TCP
  else if n = 1 then some NEBULA_PROTO_UDP
  else none

/-! ## NebulaAPIs.h: NebulaWakeUpData (lines 83-89) -/

/-- The record `NebulaWakeUpData`.  `ip` is the string held in `char ip[INET6_ADDRSTRLEN]`,
`sleep_alive_packet` is the whole byte array, the integers are the values of the
`unsigned short` and `unsigned int` members. -/
structure NebulaWakeUpData where
  ip : CString
  port : Nat
  packet_size : Nat
  sleep_alive_packet : List UInt8
  login_interval_sec : Nat

namespace NebulaWakeUpData

/-- Declared size of `char ip[INET6_ADDRSTRLEN]`. -/
def sizeof_ip : Nat := INET6_ADDRSTRLEN
/-- Declared size of `char sleep_alive_packet[NEBULA_MAX_SLEEP_ALIVE_PACKET_SIZE]`. -/
def sizeof_sleep_alive_packet : Nat := NEBULA_MAX_SLEEP_ALIVE_PACKET_SIZE

/-- A value the C type can hold: the string fits its array with the terminator,
the byte array has its declared size, the integers are in range (16-bit
`unsigned short`, 32-bit `unsigned int`). -/
def WF (d : NebulaWakeUpData) : Prop :=
  fitsBuffer sizeof_ip d.ip = true ∧ d.port < 2 ^ 16 ∧ d.packet_size < 2 ^ 32 ∧
  d.sleep_alive_packet.length = sizeof_sleep_alive_packet ∧ d.login_interval_sec < 2 ^ 32

instance (d : NebulaWakeUpData) : Decidable d.WF := by
  unfold WF; infer_instance

/-- Reading the login packet back: the first `packet_size` bytes of the array. -/
def login_packet (d : NebulaWakeUpData) : List UInt8 :=
  d.sleep_alive_packet.take d.packet_size

end NebulaWakeUpData

/-! ## NebulaAPIs.h: NebulaClientInfo (lines 91-97) -/

structure NebulaClientInfo where
  version : Int
  public_udid : CString
  psk : CString
  identity : CString
  secret_id : CString

namespace NebulaClientInfo

/-- Declared size of `char public_udid[MAX_PUBLIC_UDID_LENGTH + 1]`. -/
def sizeof_public_udid : Nat := MAX_PUBLIC_UDID_LENGTH + 1
/-- Declared size of `char psk[MAX_NEBULA_PSK_LENGTH + 1]`. -/
def sizeof_psk : Nat := MAX_NEBULA_PSK_LENGTH + 1
/-- Declared size of `char identity[MAX_NEBULA_IDENTITY_LENGTH + 1]`. -/
def sizeof_identity : Nat := MAX_NEBULA_IDENTITY_LENGTH + 1
/-- Declared size of `char secret_id[MAX_NEBULA_SECRETID_LENGTH + 1]`. -/
def sizeof_secret_id : Nat := MAX_NEBULA_SECRETID_LENGTH + 1

end NebulaClientInfo

/-! ## NebulaLANAPIs.h: st_UDIDInfo (lines 61-65) -/

structure st_UDIDInfo where
  udid : CString
  device_name : CString
  deriving DecidableEq, Repr

namespace st_UDIDInfo

/-- Declared size of `char udid[MAX_PUBLIC_UDID_LENGTH + 1]`. -/
def sizeof_udid : Nat := MAX_PUBLIC_UDID_LENGTH + 1
/-- Declared size of `char device_name[MAX_DEVICE_NAME_LENGTH + 1]`. -/
def sizeof_device_name : Nat := MAX_DEVICE_NAME_LENGTH + 1

end st_UDIDInfo

/-! ## The data model as the specification words it (section 3) -/

namespace Spec

/-- ClientIdentity, fully populated (post-bind): public_udid, psk, identity, secret_id. -/
structure ClientIdentity where
  public_udid : CString
  psk : CString
  identity : CString
  secret_id : CString
  deriving DecidableEq, Repr

/-- Every field of a client identity is within the limit section 6 gives for it. -/
def ClientIdentity.withinLimits (c : ClientIdentity) : Prop :=
  within udidLimit c.public_udid ∧ within pskLimit c.psk ∧
  within identityLimit c.identity ∧ within secretIdLimit c.secret_id

instance (c : ClientIdentity) : Decidable c.withinLimits := by
  unfold ClientIdentity.withinLimits; infer_instance

/-- UDIDRecord of LAN discovery: udid, and a device_name of at most 128 chars. -/
structure UDIDRecord where
  udid : CString
  device_name : CString
  deriving DecidableEq, Repr

/-- The record is within the limits: the UDID limit of section 6 and 128 chars of name. -/
def UDIDRecord.withinLimits (r : UDIDRecord) : Prop :=
  within udidLimit r.udid ∧ within deviceNameLimit r.device_name

instance (r : UDIDRecord) : Decidable r.withinLimits := by
  unfold UDIDRecord.withinLimits; infer_instance

/-- WakeupDescriptor: peer_ip, peer_port, a login_packet of at most 256 bytes, and
the recommended retry interval (the wake-up scenario gives it in milliseconds). -/
structure WakeupDescriptor where
  peer_ip : CString
  peer_port : Nat
  login_packet : List UInt8
  recommended_retry_interval_ms : Nat
  login_packet_le : login_packet.length ≤ 256

/-- The descriptor of the wake-up scenario of section 8, for a given 32-byte packet. -/
def wakeupScenario (packet : List UInt8) (h : packet.length = 32) : WakeupDescriptor :=
  { peer_ip := "10.0.0.5".toList
    peer_port := 12345
    login_packet := packet
    recommended_retry_interval_ms := 2000
    login_packet_le := by rw [h]; decide }

end Spec

namespace NebulaWakeUpData

/-- Modelled from the spec: how the sleep-packet call fills a `NebulaWakeUpData` from
a descriptor is not in the sources.  The conversions are those of C: the port is
reduced to 16 bits, the packet length and the interval to 32 bits, the
interval is stored in whole seconds (the member is `login_interval_sec`), and the
packet is copied to the start of the zeroed 256-byte array. -/
def ofDescriptor (w : Spec.WakeupDescriptor) : NebulaWakeUpData :=
  { ip := w.peer_ip
    port := w.peer_port % 2 ^ 16
    packet_size := w.login_packet.length % 2 ^ 32
    sleep_alive_packet :=
      w.login_packet ++ List.replicate (sizeof_sleep_alive_packet - w.login_packet.length) 0
    login_interval_sec := (w.recommended_retry_interval_ms / 1000) % 2 ^ 32 }

/-- The record holds the descriptor exactly: it is a value of the C type and every
member reads back as the corresponding part of the descriptor, the interval in
milliseconds being 1000 times the stored seconds. -/
def represents (d : NebulaWakeUpData) (w : Spec.WakeupDescriptor) : Prop :=
  d.WF ∧ d.ip = w.peer_ip ∧ d.port = w.peer_port ∧
  d.packet_size = w.login_packet.length ∧ d.login_packet = w.login_packet ∧
  d.login_interval_sec * 1000 = w.recommended_retry_interval_ms

instance (d : NebulaWakeUpData) (w : Spec.WakeupDescriptor) : Decidable (d.represents w) := by
  unfold represents; infer_instance

end NebulaWakeUpData

/-! ## The operations

The headers declare the operations and document their results; the bodies are
not part of the sources.  The models below follow the specification and the
header comments. -/

/-- Modelled from the spec: `NebulaError.h` is not among the sources.  These are
the error names the header comments of `NebulaAPIs.h` and `NebulaLANAPIs.h`
mention; every one of them is documented as a return value below zero.
`NEBULA_ER_NoERROR` is the successful return and is modelled by `Except.ok`. -/
inductive NebulaError where
  | NEBULA_ER_NOT_INITIALIZE
  | NEBULA_ER_TIMEOUT
  | NEBULA_ER_INVALID_ARG
  | NEBULA_ER_RESOURCE_ERROR
  | NEBULA_ER_MEM_INSUFFICIENT
  | NEBULA_ER_FAIL_CREATE_THREAD
  | NEBULA_ER_HTTP_ERROR
  | NEBULA_ER_BRIDGE_SERVER_LOGIN_FAIL
  | NEBULA_ER_BRIDGE_SERVER_NOT_LOGIN
  | NEBULA_ER_BIND_SERVER_LOGIN_FAIL
  | NEBULA_ER_EXCEED_BUFFER_SIZE
  | NEBULA_ER_LOGIN_ALREADY_CALLED
  | NEBULA_ER_CLIENT_NOT_BIND_TO_DEVICE
  | NEBULA_ER_DEVICE_OFFLINE
  | NEBULA_ER_DEVICE_SLEEPING
  | NEBULA_ER_DEVICE_AWAKENING
  | NEBULA_ER_DEVICE_ONLINE
  | NEBULA_ER_NO_SUCH_ENTRY
  | NEBULA_ER_DUPLICATE
  deriving DecidableEq, Repr

open NebulaError

/-- Modelled from the spec: the device context behind the untyped `NebulaDeviceCtx`
pointer is not declared in the sources.  It holds the DeviceIdentity of section 3:
udid, secret_id, profile, and the psk once the device is bound. -/
structure NebulaDeviceCtx where
  udid : CString
  secret_id : CString
  profile : CString
  psk : Option CString
  deriving DecidableEq, Repr

/-- What the Sleep/Wake Coordinator hands back for a wake pattern and a transport
protocol: if it answers at all, the time of the answer in milliseconds after the
call and the descriptors it precomputed. -/
abbrev SleepCoordinator :=
  List UInt8 → NebulaSocketProtocol → Option (Nat × List Spec.WakeupDescriptor)

/-- Modelled from the spec: the body of `Nebula_Device_Get_Sleep_Packet` is not in
the sources (NebulaAPIs.h lines 607-627 declare and document it).  Section 4.5: the
device obtains, for a wake pattern and a transport protocol, one or more
descriptors, each with a login packet of at most 256 bytes (section 3); the call
writes one `NebulaWakeUpData` per descriptor.  Header: NOT_INITIALIZE before the
module is initialized, INVALID_ARG when the context is null or the protocol is
invalid, TIMEOUT when no answer comes within `timeout_ms`, where 0 means block
forever.  The outer `none` stands for a call that never returns. -/
def Nebula_Device_Get_Sleep_Packet (initialized : Bool) (coordinator : SleepCoordinator)
    (ctx : Option NebulaDeviceCtx) (pattern : List UInt8) (protocol : Int)
    (timeout_ms : Nat) : Option (Except NebulaError (List NebulaWakeUpData)) :=
  if !initialized then some (.error NEBULA_ER_NOT_INITIALIZE)
  else
    match ctx, NebulaSocketProtocol.ofInt protocol with
    | none, _ => some (.error NEBULA_ER_INVALID_ARG)
    | some _, none => some (.error NEBULA_ER_INVALID_ARG)
    | some _, some proto =>
      match coordinator pattern proto with
      | some (t, descriptors) =>
        if timeout_ms = 0 ∨ t ≤ timeout_ms then
          some (.ok (descriptors.map NebulaWakeUpData.ofDescriptor))
        else some (.error NEBULA_ER_TIMEOUT)
      | none => if timeout_ms = 0 then none else some (.error NEBULA_ER_TIMEOUT)

/-! ## TUTKGlobalAPIs.h: error code declaration (lines 100-117) -/

def TUTK_ER_NoERROR : Int := 0
def TUTK_ER_ALREADY_INITIALIZED : Int := -1001
def TUTK_ER_INVALID_ARG : Int := -1002
def TUTK_ER_MEM_INSUFFICIENT : Int := -1003
def TUTK_ER_INVALID_LICENSE_KEY : Int := -1004

/-- The names of the error codes of `TUTKGlobalAPIs.h`. -/
inductive TUTKError where
  | TUTK_ER_ALREADY_INITIALIZED
  | TUTK_ER_INVALID_ARG
  | TUTK_ER_MEM_INSUFFICIENT
  | TUTK_ER_INVALID_LICENSE_KEY
  deriving DecidableEq, Repr

/-- The value each name is defined as. -/
def TUTKError.toInt : TUTKError → Int
  | .TUTK_ER_ALREADY_INITIALIZED => ValiSPM.TUTK_ER_ALREADY_INITIALIZED
  | .TUTK_ER_INVALID_ARG => ValiSPM.TUTK_ER_INVALID_ARG
  | .TUTK_ER_MEM_INSUFFICIENT => ValiSPM.TUTK_ER_MEM_INSUFFICIENT
  | .TUTK_ER_INVALID_LICENSE_KEY => ValiSPM.TUTK_ER_INVALID_LICENSE_KEY

/-! ## The declared operations

Every function the three headers declare, with its return type, its parameters
and what its comment documents: the error codes of the `\return` list and the
meaning of a timeout of 0. -/

inductive Operation where
  | Nebula_Initialize
  | Nebula_DeInitialize
  | Nebula_Set_Log_Attr
  | Nebula_Device_New
  | Nebula_Device_Login
  | Nebula_Device_Bind
  | Nebula_Device_New_Local_Bind_Message
  | Nebula_Device_Load_Settings
  | Nebula_Device_Push_Notification
  | Nebula_Device_Delete
  | Nebula_Client_New
  | Nebula_Client_New_From_Struct
  | Nebula_Client_New_From_String
  | Nebula_Client_To_String
  | Nebula_Client_Bind
  | Nebula_Client_Free_Bind_Response
  | Nebula_Client_Connect
  | Nebula_Client_Send_Command
  | Nebula_Client_Free_Send_Command_Response
  | Nebula_Device_Get_Sleep_Packet
  | Nebula_Device_Free_Sleep_Packet
  | Nebula_Client_Wakeup_Device
  | Nebula_Client_Delete
  | Nebula_Node_New
  | Nebula_Node_Delete
  | Nebula_Device_Add_Node
  | Nebula_Device_Find_Node
  | Nebula_Device_Remove_Node
  | Nebula_WiFi_Setup_Start_On_LAN
  | Nebula_Device_Listen_On_LAN
  | Nebula_App_Search_UDID_On_LAN
  | Nebula_App_Request_TCP_Connect_On_LAN
  | Nebula_WiFi_Setup_Stop_On_LAN
  | Nebula_Send_IOCtrl_On_LAN
  | Nebula_Recv_IOCtrl_From_LAN
  | TUTK_Set_Log_Attr
  | TUTK_SDK_Set_Region
  | TUTK_SDK_Set_License_Key
  deriving DecidableEq, Repr

/-- The return type of a declared function. -/
inductive CReturn where
  | int
  | void
  | char_ptr
  deriving DecidableEq, Repr

/-- A parameter of a declaration: its C type (the pointer stars written after a
space) and its name. -/
structure Param where
  ctype : String
  name : String
  deriving DecidableEq, Repr

/-- A status code a header comment names: a Nebula code, a code of
`TUTKGlobalAPIs.h`, or the `AV_ER_INVALID_ARG` the LAN receive call mentions. -/
inductive StatusName where
  | nebula (e : NebulaError)
  | tutk (e : TUTKError)
  | AV_ER_INVALID_ARG
  deriving DecidableEq, Repr

/-- What a header comment says a timeout of 0 means. -/
inductive ZeroTimeout where
  | blockForever
  | returnImmediately
  deriving DecidableEq, Repr

namespace Operation

/-- The return type in the declaration. -/
def returnType : Operation → CReturn
  | Nebula_Client_To_String => .char_ptr
  | Nebula_WiFi_Setup_Stop_On_LAN => .void
  | _ => .int

/-- The parameter list of the declaration. -/
def params : Operation → List Param
  | Nebula_Initialize => []
  | Nebula_DeInitialize => []
  | Nebula_Set_Log_Attr => [⟨"LogAttr", "logAttr"⟩]
  | Nebula_Device_New =>
    [⟨"const char *", "udid"⟩, ⟨"const char *", "secret_id"⟩, ⟨"const char *", "profile"⟩,
      ⟨"NebulaCommandHandleFn", "command_handler"⟩,
      ⟨"NebulaIdentityHandleFn", "identity_handler"⟩,
      ⟨"NebulaSettingsChangeHandleFn", "settings_change_handler"⟩,
      ⟨"NebulaDeviceCtx **", "ctx"⟩]
  | Nebula_Device_Login =>
    [⟨"NebulaDeviceCtx *", "ctx"⟩, ⟨"NebulaDeviceLoginStateFn", "login_state_handler"⟩]
  | Nebula_Device_Bind =>
    [⟨"NebulaDeviceCtx *", "ctx"⟩, ⟨"const char *", "pin_code"⟩, ⟨"const char *", "psk"⟩,
      ⟨"unsigned int", "timeout_msec"⟩, ⟨"unsigned int *", "abort_flag"⟩]
  | Nebula_Device_New_Local_Bind_Message =>
    [⟨"const char *", "udid"⟩, ⟨"const char *", "psk"⟩, ⟨"const char *", "secret_id"⟩,
      ⟨"char **", "bind_message_string"⟩]
  | Nebula_Device_Load_Settings =>
    [⟨"NebulaDeviceCtx *", "ctx"⟩, ⟨"const char *", "settings"⟩]
  | Nebula_Device_Push_Notification =>
    [⟨"NebulaDeviceCtx *", "ctx"⟩, ⟨"NebulaJsonObject *", "notification_obj"⟩,
      ⟨"unsigned int", "timeout_msec"⟩, ⟨"unsigned int *", "abort_flag"⟩]
  | Nebula_Device_Delete => [⟨"NebulaDeviceCtx *", "ctx"⟩]
  | Nebula_Client_New => [⟨"const char *", "public_udid"⟩, ⟨"NebulaClientCtx **", "ctx"⟩]
  | Nebula_Client_New_From_Struct =>
    [⟨"NebulaClientInfo *", "client_info"⟩, ⟨"NebulaClientCtx **", "ctx"⟩]
  | Nebula_Client_New_From_String =>
    [⟨"const char *", "public_udid"⟩, ⟨"const char *", "string_data"⟩,
      ⟨"NebulaClientCtx **", "ctx"⟩]
  | Nebula_Client_To_String => [⟨"NebulaClientCtx *", "ctx"⟩]
  | Nebula_Client_Bind =>
    [⟨"NebulaClientCtx *", "ctx"⟩, ⟨"const char *", "pin_code"⟩,
      ⟨"NebulaJsonObject **", "bind_response"⟩,
      ⟨"unsigned int", "timeout_msec"⟩, ⟨"unsigned int *", "abort_flag"⟩]
  | Nebula_Client_Free_Bind_Response => [⟨"NebulaJsonObject *", "bind_response"⟩]
  | Nebula_Client_Connect =>
    [⟨"NebulaClientCtx *", "ctx"⟩, ⟨"NebulaClientConnectStateFn", "connect_state_handler"⟩]
  | Nebula_Client_Send_Command =>
    [⟨"NebulaClientCtx *", "ctx"⟩, ⟨"const char *", "request"⟩,
      ⟨"NebulaJsonObject **", "response"⟩,
      ⟨"unsigned int", "timeout_msec"⟩, ⟨"unsigned int *", "abort_flag"⟩]
  | Nebula_Client_Free_Send_Command_Response => [⟨"NebulaJsonObject *", "response"⟩]
  | Nebula_Device_Get_Sleep_Packet =>
    [⟨"NebulaDeviceCtx *", "ctx"⟩, ⟨"unsigned char *", "pattern"⟩,
      ⟨"unsigned int", "pattern_size"⟩, ⟨"NebulaSocketProtocol", "protocol"⟩,
      ⟨"NebulaWakeUpData **", "data"⟩, ⟨"unsigned int *", "data_count"⟩,
      ⟨"unsigned int", "timeout_ms"⟩]
  | Nebula_Device_Free_Sleep_Packet => [⟨"NebulaWakeUpData *", "data"⟩]
  | Nebula_Client_Wakeup_Device =>
    [⟨"NebulaClientCtx *", "ctx"⟩, ⟨"unsigned int", "timeout_msec"⟩,
      ⟨"unsigned int *", "abort_flag"⟩]
  | Nebula_Client_Delete => [⟨"NebulaClientCtx *", "ctx"⟩]
  | Nebula_Node_New =>
    [⟨"const char *", "udid"⟩, ⟨"const char *", "profile"⟩,
      ⟨"NebulaNodeCommandHandleFn", "command_handler"⟩, ⟨"NebulaNodeCtx **", "node_ctx"⟩]
  | Nebula_Node_Delete => [⟨"NebulaNodeCtx *", "node_ctx"⟩]
  | Nebula_Device_Add_Node =>
    [⟨"NebulaDeviceCtx *", "device_ctx"⟩, ⟨"NebulaNodeCtx *", "node_ctx"⟩,
      ⟨"unsigned int", "timeout_msec"⟩, ⟨"unsigned int *", "abort_flag"⟩]
  | Nebula_Device_Find_Node =>
    [⟨"NebulaDeviceCtx *", "device_ctx"⟩, ⟨"const char *", "udid"⟩,
      ⟨"NebulaNodeCtx **", "node_ctx"⟩]
  | Nebula_Device_Remove_Node =>
    [⟨"NebulaDeviceCtx *", "device_ctx"⟩, ⟨"NebulaNodeCtx *", "node_ctx"⟩]
  | Nebula_WiFi_Setup_Start_On_LAN => [⟨"LanSearchRole", "role"⟩, ⟨"int", "searchable"⟩]
  | Nebula_Device_Listen_On_LAN =>
    [⟨"const char *", "udid"⟩, ⟨"const char *", "pwd"⟩, ⟨"const char *", "device_name"⟩,
      ⟨"uint16_t", "timeout_ms"⟩]
  | Nebula_App_Search_UDID_On_LAN =>
    [⟨"st_UDIDInfo *", "udid_array"⟩, ⟨"uint16_t", "array_cnt"⟩, ⟨"uint16_t", "timeout_ms"⟩]
  | Nebula_App_Request_TCP_Connect_On_LAN =>
    [⟨"const char *", "udid"⟩, ⟨"const char *", "pwd"⟩, ⟨"uint16_t", "timeout_ms"⟩]
  | Nebula_WiFi_Setup_Stop_On_LAN => []
  | Nebula_Send_IOCtrl_On_LAN =>
    [⟨"NebulaIOCtrlType", "type"⟩, ⟨"const char *", "ioctrl_buf"⟩,
      ⟨"uint16_t", "ioctrl_len"⟩]
  | Nebula_Recv_IOCtrl_From_LAN =>
    [⟨"NebulaIOCtrlType *", "type"⟩, ⟨"char *", "result_buf"⟩, ⟨"uint16_t", "buf_size"⟩,
      ⟨"uint16_t", "timeout_ms"⟩]
  | TUTK_Set_Log_Attr => [⟨"LogAttr", "logAttr"⟩]
  | TUTK_SDK_Set_Region => [⟨"TUTKRegion", "region"⟩]
  | TUTK_SDK_Set_License_Key => [⟨"const char *", "key"⟩]

/-- The error codes the `\return` list of the comment names (the free functions
spell the prefix `Nebula_ER_`). -/
def documentedErrors : Operation → List StatusName
  | Nebula_Initialize => [.nebula NEBULA_ER_RESOURCE_ERROR]
  | Nebula_DeInitialize => [.nebula NEBULA_ER_NOT_INITIALIZE]
  | Nebula_Set_Log_Attr => [.nebula NEBULA_ER_INVALID_ARG]
  | Nebula_Device_New =>
    [.nebula NEBULA_ER_INVALID_ARG, .nebula NEBULA_ER_NOT_INITIALIZE,
      .nebula NEBULA_ER_MEM_INSUFFICIENT, .nebula NEBULA_ER_FAIL_CREATE_THREAD]
  | Nebula_Device_Login =>
    [.nebula NEBULA_ER_INVALID_ARG, .nebula NEBULA_ER_NOT_INITIALIZE,
      .nebula NEBULA_ER_RESOURCE_ERROR, .nebula NEBULA_ER_BRIDGE_SERVER_LOGIN_FAIL,
      .nebula NEBULA_ER_TIMEOUT, .nebula NEBULA_ER_HTTP_ERROR]
  | Nebula_Device_Bind =>
    [.nebula NEBULA_ER_INVALID_ARG, .nebula NEBULA_ER_NOT_INITIALIZE,
      .nebula NEBULA_ER_BRIDGE_SERVER_NOT_LOGIN, .nebula NEBULA_ER_TIMEOUT,
      .nebula NEBULA_ER_HTTP_ERROR]
  | Nebula_Device_New_Local_Bind_Message =>
    [.nebula NEBULA_ER_INVALID_ARG, .nebula NEBULA_ER_MEM_INSUFFICIENT]
  | Nebula_Device_Load_Settings =>
    [.nebula NEBULA_ER_INVALID_ARG, .nebula NEBULA_ER_NOT_INITIALIZE]
  | Nebula_Device_Push_Notification =>
    [.nebula NEBULA_ER_INVALID_ARG, .nebula NEBULA_ER_NOT_INITIALIZE,
      .nebula NEBULA_ER_BRIDGE_SERVER_NOT_LOGIN, .nebula NEBULA_ER_TIMEOUT,
      .nebula NEBULA_ER_HTTP_ERROR]
  | Nebula_Device_Delete => [.nebula NEBULA_ER_INVALID_ARG, .nebula NEBULA_ER_NOT_INITIALIZE]
  | Nebula_Client_New =>
    [.nebula NEBULA_ER_INVALID_ARG, .nebula NEBULA_ER_NOT_INITIALIZE,
      .nebula NEBULA_ER_MEM_INSUFFICIENT]
  | Nebula_Client_New_From_Struct =>
    [.nebula NEBULA_ER_INVALID_ARG, .nebula NEBULA_ER_NOT_INITIALIZE,
      .nebula NEBULA_ER_MEM_INSUFFICIENT]
  | Nebula_Client_New_From_String =>
    [.nebula NEBULA_ER_INVALID_ARG, .nebula NEBULA_ER_NOT_INITIALIZE,
      .nebula NEBULA_ER_MEM_INSUFFICIENT]
  | Nebula_Client_To_String => []
  | Nebula_Client_Bind =>
    [.nebula NEBULA_ER_INVALID_ARG, .nebula NEBULA_ER_NOT_INITIALIZE,
      .nebula NEBULA_ER_BIND_SERVER_LOGIN_FAIL, .nebula NEBULA_ER_EXCEED_BUFFER_SIZE,
      .nebula NEBULA_ER_TIMEOUT, .nebula NEBULA_ER_HTTP_ERROR]
  | Nebula_Client_Free_Bind_Response => [.nebula NEBULA_ER_INVALID_ARG]
  | Nebula_Client_Connect =>
    [.nebula NEBULA_ER_INVALID_ARG, .nebula NEBULA_ER_NOT_INITIALIZE,
      .nebula NEBULA_ER_LOGIN_ALREADY_CALLED, .nebula NEBULA_ER_FAIL_CREATE_THREAD]
  | Nebula_Client_Send_Command =>
    [.nebula NEBULA_ER_INVALID_ARG, .nebula NEBULA_ER_NOT_INITIALIZE,
      .nebula NEBULA_ER_CLIENT_NOT_BIND_TO_DEVICE, .nebula NEBULA_ER_TIMEOUT,
      .nebula NEBULA_ER_RESOURCE_ERROR, .nebula NEBULA_ER_BRIDGE_SERVER_LOGIN_FAIL,
      .nebula NEBULA_ER_DEVICE_OFFLINE, .nebula NEBULA_ER_DEVICE_SLEEPING,
      .nebula NEBULA_ER_DEVICE_AWAKENING]
  | Nebula_Client_Free_Send_Command_Response => [.nebula NEBULA_ER_INVALID_ARG]
  | Nebula_Device_Get_Sleep_Packet =>
    [.nebula NEBULA_ER_INVALID_ARG, .nebula NEBULA_ER_NOT_INITIALIZE,
      .nebula NEBULA_ER_TIMEOUT]
  | Nebula_Device_Free_Sleep_Packet => [.nebula NEBULA_ER_INVALID_ARG]
  | Nebula_Client_Wakeup_Device =>
    [.nebula NEBULA_ER_INVALID_ARG, .nebula NEBULA_ER_NOT_INITIALIZE,
      .nebula NEBULA_ER_CLIENT_NOT_BIND_TO_DEVICE, .nebula NEBULA_ER_TIMEOUT]
  | Nebula_Client_Delete =>
    [.nebula NEBULA_ER_INVALID_ARG, .nebula NEBULA_ER_NOT_INITIALIZE,
      .nebula NEBULA_ER_DEVICE_ONLINE, .nebula NEBULA_ER_DEVICE_OFFLINE]
  | Nebula_Node_New =>
    [.nebula NEBULA_ER_INVALID_ARG, .nebula NEBULA_ER_NOT_INITIALIZE,
      .nebula NEBULA_ER_MEM_INSUFFICIENT]
  | Nebula_Node_Delete => [.nebula NEBULA_ER_INVALID_ARG, .nebula NEBULA_ER_NOT_INITIALIZE]
  | Nebula_Device_Add_Node =>
    [.nebula NEBULA_ER_INVALID_ARG, .nebula NEBULA_ER_NOT_INITIALIZE,
      .nebula NEBULA_ER_MEM_INSUFFICIENT, .nebula NEBULA_ER_TIMEOUT,
      .nebula NEBULA_ER_HTTP_ERROR, .nebula NEBULA_ER_DUPLICATE]
  | Nebula_Device_Find_Node =>
    [.nebula NEBULA_ER_INVALID_ARG, .nebula NEBULA_ER_NOT_INITIALIZE,
      .nebula NEBULA_ER_NO_SUCH_ENTRY]
  | Nebula_Device_Remove_Node =>
    [.nebula NEBULA_ER_INVALID_ARG, .nebula NEBULA_ER_NOT_INITIALIZE,
      .nebula NEBULA_ER_NO_SUCH_ENTRY]
  | Nebula_WiFi_Setup_Start_On_LAN => [.nebula NEBULA_ER_INVALID_ARG]
  | Nebula_Device_Listen_On_LAN => [.nebula NEBULA_ER_INVALID_ARG]
  | Nebula_App_Search_UDID_On_LAN => [.nebula NEBULA_ER_INVALID_ARG]
  | Nebula_App_Request_TCP_Connect_On_LAN => [.nebula NEBULA_ER_INVALID_ARG]
  | Nebula_WiFi_Setup_Stop_On_LAN => []
  | Nebula_Send_IOCtrl_On_LAN => []
  | Nebula_Recv_IOCtrl_From_LAN => [.AV_ER_INVALID_ARG]
  | TUTK_Set_Log_Attr => [.tutk .TUTK_ER_INVALID_ARG]
  | TUTK_SDK_Set_Region =>
    [.tutk .TUTK_ER_INVALID_ARG, .tutk .TUTK_ER_ALREADY_INITIALIZED]
  | TUTK_SDK_Set_License_Key =>
    [.tutk .TUTK_ER_INVALID_ARG, .tutk .TUTK_ER_ALREADY_INITIALIZED]

/-- The timeout parameter of the declaration, if it has one: the parameter named
`timeout_msec` or `timeout_ms`. -/
def timeoutParam (op : Operation) : Option Param :=
  op.params.find? (fun p => p.name == "timeout_msec" || p.name == "timeout_ms")

/-- What the comment of the timeout parameter says about the value 0: `give 0 means
block forever`, `give 0 means return immediately`, or nothing. -/
def zeroTimeout : Operation → Option ZeroTimeout
  | Nebula_Device_Bind => some .blockForever
  | Nebula_Device_Push_Notification => some .blockForever
  | Nebula_Client_Bind => some .blockForever
  | Nebula_Client_Send_Command => some .blockForever
  | Nebula_Device_Get_Sleep_Packet => some .blockForever
  | Nebula_Client_Wakeup_Device => some .blockForever
  | Nebula_Device_Add_Node => some .blockForever
  | Nebula_Recv_IOCtrl_From_LAN => some .returnImmediately
  | _ => none

end Operation

/-! ## NebulaLANAPIs.h: LanSearchRole (lines 50-53) -/

inductive LanSearchRole where
  | DEVICE
  | CLIENT
  deriving DecidableEq, Repr

/-- The enumerator an integer role denotes, if any: DEVICE is 0 and CLIENT is 1. -/
def LanSearchRole.ofInt (n : Int) : Option LanSearchRole :=
  if n = 0 then some DEVICE
  else if n = 1 then some CLIENT
  else none

/-- The stores of the discovery loop into the result array, in order, each with
the index it goes to.  The responses come in order of arrival, each with its
arrival time in milliseconds after the start of the search; `found` is the number
of records stored so far.  The loop ends when the array is full, when the timeout
has elapsed, or when there is nothing more to receive. -/
def searchWrites (array_cnt timeout_ms : Nat) :
    List (Nat × st_UDIDInfo) → Nat → List (Nat × st_UDIDInfo)
  | [], _ => []
  | (t, r) :: rest, found =>
    if array_cnt ≤ found ∨ timeout_ms ≤ t then []
    else (found, r) :: searchWrites array_cnt timeout_ms rest (found + 1)

/-- The array after a sequence of stores. -/
def applyWrites (arr : List st_UDIDInfo) (writes : List (Nat × st_UDIDInfo)) :
    List st_UDIDInfo :=
  writes.foldl (fun a w => a.set w.1 w.2) arr

/-- What a call of the LAN search leaves behind: the `int` it returns (the number of
devices found, or an error), the stores it made into `udid_array`, and the array
afterwards (absent when the caller passed a null pointer). -/
structure SearchOutcome where
  ret : Except NebulaError Nat
  writes : List (Nat × st_UDIDInfo)
  udid_array : Option (List st_UDIDInfo)

/-- Modelled from the spec: the body of `Nebula_App_Search_UDID_On_LAN` is not in the
sources (NebulaLANAPIs.h lines 108-125 declare and document it).  Section 4.6: the
searching client collects the responses into a bounded, caller-sized array until
`timeout_ms` elapses or the array is full; the header: it returns the number of
devices found, or INVALID_ARG.  `role` is the role the LAN search was started
with, `udid_array` the caller's array (`none` for a null pointer), `array_cnt` and
`timeout_ms` are `uint16_t` arguments, `responses` are the replies of the devices
on the LAN in order of arrival. -/
def Nebula_App_Search_UDID_On_LAN (role : Int) (responses : List (Nat × st_UDIDInfo))
    (udid_array : Option (List st_UDIDInfo)) (array_cnt timeout_ms : Nat) : SearchOutcome :=
  match LanSearchRole.ofInt role, udid_array with
  | none, _ => { ret := .error NEBULA_ER_INVALID_ARG, writes := [], udid_array := udid_array }
  | some _, none => { ret := .error NEBULA_ER_INVALID_ARG, writes := [], udid_array := none }
  | some _, some arr =>
    let writes := searchWrites (array_cnt % 2 ^ 16) (timeout_ms % 2 ^ 16) responses 0
    { ret := .ok writes.length, writes := writes, udid_array := some (applyWrites arr writes) }

/-! ## The client restart token -/

/-- Modelled from the spec: the client context behind the untyped `NebulaClientCtx`
pointer is not declared in the sources.  It holds the ClientIdentity of section 3:
the public_udid it was created for, and psk, identity and secret_id, which are
null until the client is bound. -/
structure NebulaClientCtx where
  public_udid : CString
  psk : Option CString
  identity : Option CString
  secret_id : Option CString
  deriving DecidableEq, Repr

/-- The context of a fully populated (post-bind) client identity. -/
def NebulaClientCtx.ofIdentity (c : Spec.ClientIdentity) : NebulaClientCtx :=
  { public_udid := c.public_udid
    psk := some c.psk
    identity := some c.identity
    secret_id := some c.secret_id }

/-- The double quote character. -/
def QUOTE : Char := Char.ofNat 34
/-- The backslash character. -/
def BACKSLASH : Char := Char.ofNat 92
/-- The opening brace character. -/
def LBRACE : Char := Char.ofNat 123
/-- The closing brace character. -/
def RBRACE : Char := Char.ofNat 125

/-- The body of a JSON string: a quote or a backslash is preceded by a backslash,
every other character is written as it is. -/
def jsonEscape : CString → List Char
  | [] => []
  | c :: s =>
    if c = QUOTE ∨ c = BACKSLASH then BACKSLASH :: c :: jsonEscape s
    else c :: jsonEscape s

/-- Reading the body of a JSON string up to its closing quote: the string read and
the input after the quote.  `escaped` says that the previous character was a
backslash.  A body that ends before its closing quote, or a backslash before
anything but a quote or a backslash, is an error. -/
def readJsonString : Bool → List Char → Option (CString × List Char)
  | _, [] => none
  | true, c :: rest =>
    if c = QUOTE ∨ c = BACKSLASH then
      (readJsonString false rest).map (fun p => (c :: p.1, p.2))
    else none
  | false, c :: rest =>
    if c = QUOTE then some ([], rest)
    else if c = BACKSLASH then readJsonString true rest
    else (readJsonString false rest).map (fun p => (c :: p.1, p.2))

/-- Reading a fixed text at the start of the input: the input after it, if it is there. -/
def expectText : List Char → List Char → Option (List Char)
  | [], input => some input
  | _ :: _, [] => none
  | l :: text, c :: input => if l = c then expectText text input else none

/-- The opening of a JSON member whose value is a string: the quoted key, the
colon and the opening quote of the value. -/
def jsonKey (key : String) : List Char :=
  QUOTE :: key.toList ++ [QUOTE, ':', QUOTE]

/-- Modelled from the spec: the format of the restart token is not in the sources;
the specification calls it an opaque string and the header of
`Nebula_Client_To_String` a JSON string with the information of the device.  The
model writes one JSON object with the members psk, identity and secret_id. -/
def clientToken (psk identity secret_id : CString) : CString :=
  LBRACE :: jsonKey "psk" ++ jsonEscape psk ++
    QUOTE :: ',' :: jsonKey "identity" ++ jsonEscape identity ++
    QUOTE :: ',' :: jsonKey "secret_id" ++ jsonEscape secret_id ++ [QUOTE, RBRACE]

/-- Parsing a restart token: exactly the object `clientToken` writes, and nothing
after its closing brace. -/
def parseClientToken (input : CString) : Option (CString × CString × CString) :=
  match input with
  | [] => none
  | c :: input =>
    if c = LBRACE then
      (expectText (jsonKey "psk") input).bind fun r =>
      (readJsonString false r).bind fun p =>
      (expectText (',' :: jsonKey "identity") p.2).bind fun r =>
      (readJsonString false r).bind fun i =>
      (expectText (',' :: jsonKey "secret_id") i.2).bind fun r =>
      (readJsonString false r).bind fun s =>
      if s.2 = [RBRACE] then some (p.1, i.1, s.1) else none
    else none

/-- Modelled from the spec: the body of `Nebula_Client_To_String` is not in the
sources (NebulaAPIs.h lines 481-494 declare and document it).  It returns null when
the psk, secret_id or identity of the context is null, and the token otherwise. -/
def Nebula_Client_To_String (ctx : NebulaClientCtx) : Option CString :=
  match ctx.psk, ctx.identity, ctx.secret_id with
  | some psk, some identity, some secret_id => some (clientToken psk identity secret_id)
  | _, _, _ => none

/-- Modelled from the spec: the body of `Nebula_Client_New_From_String` is not in the
sources (NebulaAPIs.h lines 458-478 declare and document it).  Header: NOT_INITIALIZE
before the module is initialized; INVALID_ARG when `ctx` or `string_data` is null or
`string_data` does not parse; MEM_INSUFFICIENT when the context cannot be allocated.
Section 6: identifiers are validated for non-null and maximal length, violations
fail with InvalidArgument.  `ctx_is_null` says that the output pointer is null,
`alloc_ok` that memory for the context is available. -/
def Nebula_Client_New_From_String (initialized alloc_ok : Bool)
    (public_udid string_data : Option CString) (ctx_is_null : Bool) :
    Except NebulaError NebulaClientCtx :=
  if !initialized then .error NEBULA_ER_NOT_INITIALIZE
  else if ctx_is_null then .error NEBULA_ER_INVALID_ARG
  else
    match public_udid, string_data with
    | none, _ => .error NEBULA_ER_INVALID_ARG
    | some _, none => .error NEBULA_ER_INVALID_ARG
    | some udid, some data =>
      match parseClientToken data with
      | none => .error NEBULA_ER_INVALID_ARG
      | some (psk, identity, secret_id) =>
        if withinLength MAX_PUBLIC_UDID_LENGTH udid && withinLength MAX_NEBULA_PSK_LENGTH psk
            && withinLength MAX_NEBULA_IDENTITY_LENGTH identity
            && withinLength MAX_NEBULA_SECRETID_LENGTH secret_id then
          if alloc_ok then
            .ok { public_udid := udid, psk := some psk, identity := some identity,
                  secret_id := some secret_id }
          else .error NEBULA_ER_MEM_INSUFFICIENT
        else .error NEBULA_ER_INVALID_ARG

/-- A string is a restart token: some client context has it as the result of
`Nebula_Client_To_String`.  Every other string is a corrupt token. -/
def producedByToString (data : CString) : Prop :=
  ∃ ctx : NebulaClientCtx, Nebula_Client_To_String ctx = some data

/-! ## Blocking calls -/

/-- Modelled from the spec: failures section 7 names.  `code` is a failure reported
with one of the codes the header comments name; `AlreadyBound` and `Aborted` are
failures of section 7 for which no header comment names a code. -/
inductive Failure where
  | code (e : NebulaError)
  | AlreadyBound
  | Aborted
  deriving DecidableEq, Repr

/-- How a wait ends, and when (milliseconds after the call). -/
inductive WaitResult where
  | received (t : Nat)
  | aborted (t : Nat)
  | timedOut (t : Nat)
  deriving DecidableEq, Repr

/-- The time `x` is not after the time `y`; an absent `y` never comes. -/
def notAfter (x : Nat) : Option Nat → Bool
  | none => true
  | some y => decide (x ≤ y)

/-- The deadline of a blocking call: `timeout` milliseconds after the call, and
none at all when the timeout is 0 and the header says that 0 means block forever. -/
def waitDeadline (zero : Option ZeroTimeout) (timeout : Nat) : Option Nat :=
  if zero = some ZeroTimeout.blockForever ∧ timeout = 0 then none else some timeout

/-- Modelled from the spec: the wait inside a blocking operation (sections 4.4
and 5).  The awaited event arrives at `arrival`, the caller asserts the abort flag
at `abort` (either may never happen); the wait ends with whichever of arrival,
abort and deadline comes first, and never ends (`none`) when none of them comes. -/
def awaitEvent (zero : Option ZeroTimeout) (timeout : Nat) (arrival abort : Option Nat) :
    Option WaitResult :=
  let deadline := waitDeadline zero timeout
  match arrival, abort, deadline with
  | some t, some a, some d =>
    if t ≤ a ∧ t ≤ d then some (.received t)
    else if a ≤ d then some (.aborted a) else some (.timedOut d)
  | some t, some a, none => if t ≤ a then some (.received t) else some (.aborted a)
  | some t, none, some d => if t ≤ d then some (.received t) else some (.timedOut d)
  | some t, none, none => some (.received t)
  | none, some a, some d => if a ≤ d then some (.aborted a) else some (.timedOut d)
  | none, some a, none => some (.aborted a)
  | none, none, some d => some (.timedOut d)
  | none, none, none => none

/-! ## Device creation and binding -/

/-- The arguments of `Nebula_Device_New`.  A null string pointer is `none`; for the
three handlers and the output pointer `ctx` the field says whether the pointer is
non-null. -/
structure DeviceNewArgs where
  udid : Option CString
  secret_id : Option CString
  profile : Option CString
  command_handler : Bool
  identity_handler : Bool
  settings_change_handler : Bool
  ctx : Bool
  deriving DecidableEq, Repr

/-- The condition the header gives for NEBULA_ER_INVALID_ARG: udid, secret_id, profile,
one of the handlers or ctx is null, or the profile is longer than MAX_PROFILE_LENGTH. -/
def DeviceNewArgs.invalid (a : DeviceNewArgs) : Prop :=
  a.udid = none ∨ a.secret_id = none ∨ a.profile = none ∨ a.command_handler = false ∨
  a.identity_handler = false ∨ a.settings_change_handler = false ∨ a.ctx = false ∨
  ∃ profile, a.profile = some profile ∧ MAX_PROFILE_LENGTH < strlen profile

/-- Modelled from the spec: the body of `Nebula_Device_New` is not in the sources
(NebulaAPIs.h lines 245-271 declare and document it).  Header: NOT_INITIALIZE before
the module is initialized; INVALID_ARG when udid, secret_id, profile, a handler or
ctx is null or the profile is longer than MAX_PROFILE_LENGTH; MEM_INSUFFICIENT and
FAIL_CREATE_THREAD when memory or a thread cannot be had; otherwise a new, unbound
device context. -/
def Nebula_Device_New (initialized alloc_ok thread_ok : Bool) (a : DeviceNewArgs) :
    Except NebulaError NebulaDeviceCtx :=
  if !initialized then .error NEBULA_ER_NOT_INITIALIZE
  else
    match a.udid, a.secret_id, a.profile with
    | some udid, some secret_id, some profile =>
      if !(a.command_handler && a.identity_handler && a.settings_change_handler && a.ctx)
      then .error NEBULA_ER_INVALID_ARG
      else if MAX_PROFILE_LENGTH < strlen profile then .error NEBULA_ER_INVALID_ARG
      else if !alloc_ok then .error NEBULA_ER_MEM_INSUFFICIENT
      else if !thread_ok then .error NEBULA_ER_FAIL_CREATE_THREAD
      else .ok { udid := udid, secret_id := secret_id, profile := profile, psk := none }
    | _, _, _ => .error NEBULA_ER_INVALID_ARG

/-- Modelled from the spec: a device context together with its session state: whether
the device is logged in to the bridge server. -/
structure DeviceSession where
  ctx : NebulaDeviceCtx
  logged_in : Bool
  deriving DecidableEq, Repr

/-- The device is bound: a bind has succeeded and its PSK is stored. -/
def DeviceSession.bound (s : DeviceSession) : Bool := s.ctx.psk.isSome

/-- The answer of the bind server to a bind request, if it answers: the time of
the answer and whether it accepts the binding (otherwise it is an HTTP error). -/
abbrev BindReply := Option (Nat × Bool)

/-- What a call of the device bind leaves behind: the result and the session. -/
structure BindOutcome where
  ret : Except Failure Unit
  session : Option DeviceSession

/-- Modelled from the spec: the body of `Nebula_Device_Bind` is not in the sources
(NebulaAPIs.h lines 298-325 declare and document it).  Header: the call can only be
made once; NOT_INITIALIZE before the module is initialized; INVALID_ARG when ctx,
pin_code or psk is null; BRIDGE_SERVER_NOT_LOGIN when the device has not logged in;
TIMEOUT and HTTP_ERROR from the bind server; a timeout of 0 means block forever.
Section 4.2: the device side goes from AwaitingBind to Bound once, and a bind attempt
on a bound device fails with AlreadyBound; section 8: it never overwrites the PSK.
On success the PSK is stored.  The outer `none` stands for a call that never
returns. -/
def Nebula_Device_Bind (initialized : Bool) (session : Option DeviceSession)
    (pin_code psk : Option CString) (timeout_msec : Nat) (reply : BindReply)
    (abort : Option Nat) : Option BindOutcome :=
  if !initialized then some ⟨.error (.code NEBULA_ER_NOT_INITIALIZE), session⟩
  else
    match session, pin_code, psk with
    | some s, some _, some key =>
      if s.bound then some ⟨.error .AlreadyBound, some s⟩
      else if !s.logged_in then some ⟨.error (.code NEBULA_ER_BRIDGE_SERVER_NOT_LOGIN), some s⟩
      else
        match awaitEvent Operation.Nebula_Device_Bind.zeroTimeout timeout_msec
            (reply.map Prod.fst) abort with
        | none => none
        | some (.received _) =>
          if (reply.map Prod.snd) = some true then
            some ⟨.ok (), some { s with ctx := { s.ctx with psk := some key } }⟩
          else some ⟨.error (.code NEBULA_ER_HTTP_ERROR), some s⟩
        | some (.aborted _) => some ⟨.error .Aborted, some s⟩
        | some (.timedOut _) => some ⟨.error (.code NEBULA_ER_TIMEOUT), some s⟩
    | _, _, _ => some ⟨.error (.code NEBULA_ER_INVALID_ARG), session⟩

/-! ## Client connection and wake-up -/

/-- The client is bound to its device: psk, identity and secret_id are all stored. -/
def NebulaClientCtx.bound (c : NebulaClientCtx) : Bool :=
  c.psk.isSome && c.identity.isSome && c.secret_id.isSome

/-- Modelled from the spec: a client context together with its session state:
whether `Nebula_Client_Connect` has been called on it. -/
structure ClientSession where
  ctx : NebulaClientCtx
  connect_called : Bool
  deriving DecidableEq, Repr

/-- Modelled from the spec: the body of `Nebula_Client_Connect` is not in the sources
(NebulaAPIs.h lines 544-563 declare and document it).  Header: NOT_INITIALIZE before
the module is initialized; INVALID_ARG when ctx is null; LOGIN_ALREADY_CALLED when
the function was already called; FAIL_CREATE_THREAD when the thread of the persistent
connection cannot be created.  The result and the session afterwards. -/
def Nebula_Client_Connect (initialized thread_ok : Bool) (session : Option ClientSession) :
    Except NebulaError Unit × Option ClientSession :=
  if !initialized then (.error NEBULA_ER_NOT_INITIALIZE, session)
  else
    match session with
    | none => (.error NEBULA_ER_INVALID_ARG, none)
    | some s =>
      if s.connect_called then (.error NEBULA_ER_LOGIN_ALREADY_CALLED, some s)
      else if !thread_ok then (.error NEBULA_ER_FAIL_CREATE_THREAD, some s)
      else (.ok (), some { s with connect_called := true })

/-- What a call of the client wake-up leaves behind: the result, the wake packets it
emitted, and the time it took in milliseconds. -/
structure WakeupOutcome where
  ret : Except Failure Unit
  packets : List (List UInt8)
  elapsed_ms : Nat

/-- The wake packets emitted up to time `t`: one at the start and one after every
full interval. -/
def wakePackets (w : Spec.WakeupDescriptor) (t : Nat) : List (List UInt8) :=
  List.replicate (t / w.recommended_retry_interval_ms + 1) w.login_packet

/-- Modelled from the spec: the body of `Nebula_Client_Wakeup_Device` is not in the
sources (NebulaAPIs.h lines 643-660 declare and document it).  Header: NOT_INITIALIZE
before the module is initialized; INVALID_ARG when ctx is null;
CLIENT_NOT_BIND_TO_DEVICE when the client is not bound; TIMEOUT; a timeout of 0 means
block forever.  Section 4.5: the client emits the wake packet of the descriptor at
the recommended interval until the device is online again (`online`), the timeout
elapses or the caller aborts; a client that is not bound fails fast.  The outer
`none` stands for a call that never returns. -/
def Nebula_Client_Wakeup_Device (initialized : Bool) (ctx : Option NebulaClientCtx)
    (descriptor : Spec.WakeupDescriptor) (timeout_msec : Nat) (online abort : Option Nat) :
    Option WakeupOutcome :=
  if !initialized then some ⟨.error (.code NEBULA_ER_NOT_INITIALIZE), [], 0⟩
  else
    match ctx with
    | none => some ⟨.error (.code NEBULA_ER_INVALID_ARG), [], 0⟩
    | some c =>
      if !c.bound then some ⟨.error (.code NEBULA_ER_CLIENT_NOT_BIND_TO_DEVICE), [], 0⟩
      else
        match awaitEvent Operation.Nebula_Client_Wakeup_Device.zeroTimeout timeout_msec
            online abort with
        | none => none
        | some (.received t) => some ⟨.ok (), wakePackets descriptor t, t⟩
        | some (.aborted t) => some ⟨.error .Aborted, wakePackets descriptor t, t⟩
        | some (.timedOut t) =>
          some ⟨.error (.code NEBULA_ER_TIMEOUT), wakePackets descriptor t, t⟩

/-! ## TUTKGlobalAPIs.h: TUTKRegion (lines 67-74) and the configuration -/

def REGION_RESERVED : Int := 0
def REGION_CN : Int := 1
def REGION_EU : Int := 2
def REGION_US : Int := 3
def REGION_ASIA : Int := 4
def REGION_COUNT : Int := 5

/-- Modelled from the spec: the configuration the global setters write (section 6):
the server region and the license key. -/
structure TUTKConfig where
  region : Int
  license_key : Option CString
  deriving DecidableEq, Repr

/-- Modelled from the spec: the body of `TUTK_SDK_Set_Region` is not in the sources
(TUTKGlobalAPIs.h lines 136-149 declare and document it).  Header: it needs to be
called before the modules are initialized; TUTK_ER_ALREADY_INITIALIZED when a module
is already initialized, TUTK_ER_INVALID_ARG when the region is invalid (taken as: not
an enumerator below REGION_COUNT).  The return value and the configuration
afterwards. -/
def TUTK_SDK_Set_Region (initialized : Bool) (cfg : TUTKConfig) (region : Int) :
    Int × TUTKConfig :=
  if initialized then (TUTK_ER_ALREADY_INITIALIZED, cfg)
  else if region < 0 ∨ REGION_COUNT ≤ region then (TUTK_ER_INVALID_ARG, cfg)
  else (TUTK_ER_NoERROR, { cfg with region := region })

/-- Modelled from the spec: the body of `TUTK_SDK_Set_License_Key` is not in the
sources (TUTKGlobalAPIs.h lines 151-163 declare and document it).  Header: it needs
to be called before the modules are initialized; TUTK_ER_ALREADY_INITIALIZED when a
module is already initialized, TUTK_ER_INVALID_ARG for an invalid argument (taken
as: a null key).  The return value and the configuration afterwards. -/
def TUTK_SDK_Set_License_Key (initialized : Bool) (cfg : TUTKConfig) (key : Option CString) :
    Int × TUTKConfig :=
  if initialized then (TUTK_ER_ALREADY_INITIALIZED, cfg)
  else
    match key with
    | none => (TUTK_ER_INVALID_ARG, cfg)
    | some k => (TUTK_ER_NoERROR, { cfg with license_key := some k })

/-! ## Module lifecycle -/

/-- Modelled from the spec: the body of `Nebula_Initialize` is not in the sources
(NebulaAPIs.h lines 196-213 declare and document it).  Header: RESOURCE_ERROR when the
system resources cannot be had.  The result and whether the module is initialized
afterwards. -/
def Nebula_Initialize (initialized resource_ok : Bool) : Except NebulaError Unit × Bool :=
  if resource_ok then (.ok (), true) else (.error NEBULA_ER_RESOURCE_ERROR, initialized)

/-- Modelled from the spec: the body of `Nebula_DeInitialize` is not in the sources
(NebulaAPIs.h lines 216-230 declare and document it).  Header: NOT_INITIALIZE when the
module is not initialized.  The result and whether the module is initialized
afterwards. -/
def Nebula_DeInitialize (initialized : Bool) : Except NebulaError Unit × Bool :=
  if initialized then (.ok (), false) else (.error NEBULA_ER_NOT_INITIALIZE, false)

/-- The configuration setters: the operations that write the configuration of
section 6 (log attributes, server region, license key). -/
def Operation.isConfigurationSetter : Operation → Bool
  | .Nebula_Set_Log_Attr => true
  | .TUTK_Set_Log_Attr => true
  | .TUTK_SDK_Set_Region => true
  | .TUTK_SDK_Set_License_Key => true
  | _ => false

/-- Modelled from the spec: the lifecycle check at the start of an operation
(sections 5 and 8): any operation other than initialize, called while the module is
not initialized, returns NotInitialized.  The check does not apply to
`Nebula_Initialize`, to the configuration setters, which section 6 has called
before initialization, and to an operation declared `void` or `char *`, which has
no status to return.  The result is `none` when the check lets the call through or
does not apply. -/
def lifecycleCheck (initialized : Bool) (op : Operation) : Option NebulaError :=
  if initialized then none
  else if op = Operation.Nebula_Initialize ∨ op.isConfigurationSetter = true ∨
      op.returnType ≠ CReturn.int then none
  else some NEBULA_ER_NOT_INITIALIZE

/-! ## TUTKGlobalAPIs.h: LogLevel (lines 76-83) and the `log_level` rule (line 89) -/

inductive logLevel_t where
  | LEVEL_VERBOSE
  | LEVEL_DEBUG
  | LEVEL_INFO
  | LEVEL_WARNING
  | LEVEL_ERROR
  | LEVEL_SILENCE
  deriving DecidableEq, Repr

/-- The integer value of each enumerator, as written in the header. -/
def logLevel_t.toInt : logLevel_t → Int
  | LEVEL_VERBOSE => 0
  | LEVEL_DEBUG => 1
  | LEVEL_INFO => 2
  | LEVEL_WARNING => 3
  | LEVEL_ERROR => 4
  | LEVEL_SILENCE => 5

/-- The rule in the comment of `LogAttr.log_level`: the log message with level
`log_level` or higher would be logged.  Both levels are the integer values. -/
def messageLogged (log_level level : Int) : Bool := decide (log_level ≤ level)

/-- The levels a message can have: LEVEL_VERBOSE to LEVEL_ERROR; LEVEL_SILENCE is a
setting of `log_level` only. -/
def logLevel_t.isMessageLevel (level : logLevel_t) : Bool :=
  decide (level.toInt ≤ logLevel_t.LEVEL_ERROR.toInt)

/-! ## TUTKGlobalAPIs.h: the return value test (lines 130-131, 143-146) -/

/-- The test the header comments give a caller: `Error code if return value < 0`. -/
def isErrorReturn (ret : Int) : Bool := decide (ret < 0)

/-- The declared error a return value stands for, if any. -/
def TUTKError.ofInt (ret : Int) : Option TUTKError :=
  if ret = ValiSPM.TUTK_ER_ALREADY_INITIALIZED then some .TUTK_ER_ALREADY_INITIALIZED
  else if ret = ValiSPM.TUTK_ER_INVALID_ARG then some .TUTK_ER_INVALID_ARG
  else if ret = ValiSPM.TUTK_ER_MEM_INSUFFICIENT then some .TUTK_ER_MEM_INSUFFICIENT
  else if ret = ValiSPM.TUTK_ER_INVALID_LICENSE_KEY then some .TUTK_ER_INVALID_LICENSE_KEY
  else none

/-! ## Device login -/

/-- The answer of the bridge server to a login. -/
inductive LoginReply where
  | accepted
  | rejected
  | timeout
  | httpError
  deriving DecidableEq, Repr

/-- Modelled from the spec: the body of `Nebula_Device_Login` is not in the sources
(NebulaAPIs.h lines 274-295 declare and document it).  Header: INVALID_ARG when ctx is
null; NOT_INITIALIZE; RESOURCE_ERROR; BRIDGE_SERVER_LOGIN_FAIL, TIMEOUT and HTTP_ERROR
from the bridge server.  Section 4.3: login blocks until the bridge acknowledges or
rejects the session, and there is exactly one login per context: a login call on a
context whose login is in progress (`login_in_progress`: another call of login on
this context is under way) or established fails with AlreadyCalled, the failure the
header names NEBULA_ER_LOGIN_ALREADY_CALLED.  The result and the session
afterwards. -/
def Nebula_Device_Login (initialized resource_ok : Bool) (session : Option DeviceSession)
    (login_in_progress : Bool) (reply : LoginReply) :
    Except NebulaError Unit × Option DeviceSession :=
  match lifecycleCheck initialized Operation.Nebula_Device_Login with
  | some e => (.error e, session)
  | none =>
    match session with
    | none => (.error NEBULA_ER_INVALID_ARG, none)
    | some s =>
      if s.logged_in || login_in_progress then (.error NEBULA_ER_LOGIN_ALREADY_CALLED, some s)
      else if !resource_ok then (.error NEBULA_ER_RESOURCE_ERROR, some s)
      else
        match reply with
        | .accepted => (.ok (), some { s with logged_in := true })
        | .rejected => (.error NEBULA_ER_BRIDGE_SERVER_LOGIN_FAIL, some s)
        | .timeout => (.error NEBULA_ER_TIMEOUT, some s)
        | .httpError => (.error NEBULA_ER_HTTP_ERROR, some s)

/-! ## TUTKGlobalAPIs.h: LogAttr (lines 85-98) and the log attribute setters -/

/-- The record `LogAttr`; a null `path` is `none`. -/
structure LogAttr where
  path : Option CString
  log_level : logLevel_t
  file_max_size : Int
  file_max_count : Int
  deriving DecidableEq, Repr

/-- The attributes are a valid argument (taken as: the two `int` members, for which
0 means unlimited, are not negative). -/
def LogAttr.valid (a : LogAttr) : Bool :=
  decide (0 ≤ a.file_max_size) && decide (0 ≤ a.file_max_count)

/-- Modelled from the spec: the body of `TUTK_Set_Log_Attr` is not in the sources
(TUTKGlobalAPIs.h lines 125-134 declare and document it).  Header: TUTK_ER_INVALID_ARG
for an invalid argument.  Section 6: the log attributes must be set before module
initialization, and changing them after initialization fails with
AlreadyInitialized.  The return value and the stored attributes afterwards. -/
def TUTK_Set_Log_Attr (initialized : Bool) (current logAttr : LogAttr) : Int × LogAttr :=
  if initialized then (TUTK_ER_ALREADY_INITIALIZED, current)
  else if !logAttr.valid then (TUTK_ER_INVALID_ARG, current)
  else (TUTK_ER_NoERROR, logAttr)

/-- Modelled from the spec: the body of `Nebula_Set_Log_Attr` is not in the sources
(NebulaAPIs.h lines 233-242 declare and document it).  Header: NEBULA_ER_INVALID_ARG
for an invalid argument.  Section 6: the log attributes must be set before module
initialization, and changing them after initialization fails with
AlreadyInitialized, the code TUTK_ER_ALREADY_INITIALIZED of the global header.  The
result and the stored attributes afterwards. -/
def Nebula_Set_Log_Attr (initialized : Bool) (current logAttr : LogAttr) :
    Except StatusName Unit × LogAttr :=
  if initialized then (.error (.tutk .TUTK_ER_ALREADY_INITIALIZED), current)
  else if !logAttr.valid then (.error (.nebula NEBULA_ER_INVALID_ARG), current)
  else (.ok (), logAttr)

/-! ## Sending a command -/

/-- The first polling point at or after the time `t` of a call that looks at its
abort flag, its deadline and its inbox every `poll` milliseconds; with a polling
interval of 0 it looks all the time. -/
def nextPoll (poll t : Nat) : Nat :=
  if poll = 0 then t else (t + poll - 1) / poll * poll

/-- The answer to a command, if one comes: its time, and the response text of the
device or the failure the bridge reports for it. -/
abbrev CommandReply := Option (Nat × Except NebulaError CString)

/-- What a call of send command leaves behind: the result and the time the call
took in milliseconds. -/
structure CommandOutcome where
  ret : Except Failure CString
  elapsed_ms : Nat

/-- Modelled from the spec: the body of `Nebula_Client_Send_Command` is not in the
sources (NebulaAPIs.h lines 565-591 declare and document it).  Header: NOT_INITIALIZE;
INVALID_ARG when ctx, request or response is null or the request does not parse;
CLIENT_NOT_BIND_TO_DEVICE; TIMEOUT; the failures the bridge reports; a timeout of 0
means block forever.  Sections 4.4 and 5: the call waits for the response, the
abort flag or the deadline, whichever comes first, polling at each internal wait
point, so it returns at the first polling point at or after that event; an
asserted abort flag gives Aborted.  The outer `none` stands for a call that never
returns. -/
def Nebula_Client_Send_Command (initialized : Bool) (ctx : Option NebulaClientCtx)
    (request : Option CString) (request_parses response_is_null : Bool)
    (timeout_msec poll_ms : Nat) (reply : CommandReply) (abort : Option Nat) :
    Option CommandOutcome :=
  match lifecycleCheck initialized Operation.Nebula_Client_Send_Command with
  | some e => some ⟨.error (.code e), 0⟩
  | none =>
    match ctx, request with
    | some c, some _ =>
      if response_is_null || !request_parses then
        some ⟨.error (.code NEBULA_ER_INVALID_ARG), 0⟩
      else if !c.bound then some ⟨.error (.code NEBULA_ER_CLIENT_NOT_BIND_TO_DEVICE), 0⟩
      else
        match reply, awaitEvent Operation.Nebula_Client_Send_Command.zeroTimeout
            timeout_msec (reply.map Prod.fst) abort with
        | some (_, .ok response), some (.received t) =>
          some ⟨.ok response, nextPoll poll_ms t⟩
        | some (_, .error e), some (.received t) =>
          some ⟨.error (.code e), nextPoll poll_ms t⟩
        | _, some (.aborted t) => some ⟨.error .Aborted, nextPoll poll_ms t⟩
        | _, some (.timedOut t) => some ⟨.error (.code NEBULA_ER_TIMEOUT), nextPoll poll_ms t⟩
        | _, _ => none
    | _, _ => some ⟨.error (.code NEBULA_ER_INVALID_ARG), 0⟩

/-! ## Theorems -/

/-- C1: the declared maximum lengths for public UDID, PSK, identity and secret ID
are 40, 1024, 119 and 128, and a string is within the specification's limit for
one of these identifiers exactly when its length is at most the constant. -/
theorem C1_identifier_limits :
    MAX_PUBLIC_UDID_LENGTH = 40 ∧ MAX_NEBULA_PSK_LENGTH = 1024 ∧
    MAX_NEBULA_IDENTITY_LENGTH = 119 ∧ MAX_NEBULA_SECRETID_LENGTH = 128 ∧
    ∀ s : CString,
      (Spec.within Spec.udidLimit s ↔ strlen s ≤ MAX_PUBLIC_UDID_LENGTH) ∧
      (Spec.within Spec.pskLimit s ↔ strlen s ≤ MAX_NEBULA_PSK_LENGTH) ∧
      (Spec.within Spec.identityLimit s ↔ strlen s ≤ MAX_NEBULA_IDENTITY_LENGTH) ∧
      (Spec.within Spec.secretIdLimit s ↔ strlen s ≤ MAX_NEBULA_SECRETID_LENGTH) := by
  refine ⟨rfl, rfl, rfl, rfl, fun s => ⟨Iff.rfl, Iff.rfl, Iff.rfl, Iff.rfl⟩⟩

/-- C2 (counterexample): the nine-character PIN 123456789 has length 9 or more,
yet it is within the declared PIN limit MAX_PIN_CODE_LENGTH, which is 9 and not 8. -/
theorem C2_nine_char_pin_admitted :
    9 ≤ strlen "123456789".toList ∧
    withinLength MAX_PIN_CODE_LENGTH "123456789".toList = true ∧
    ¬ Spec.within Spec.pinLimit "123456789".toList := by
  decide

/-- C2 (amended): the declared PIN limit MAX_PIN_CODE_LENGTH is 9; it admits exactly
the PINs of length at most 9, so every PIN of length at most 8 is admitted and
every PIN of length 10 or more is rejected. -/
theorem C2_pin_limit_is_nine :
    MAX_PIN_CODE_LENGTH = 9 ∧
    ∀ pin : CString,
      (withinLength MAX_PIN_CODE_LENGTH pin = true ↔ strlen pin ≤ 9) ∧
      (Spec.within Spec.pinLimit pin → withinLength MAX_PIN_CODE_LENGTH pin = true) ∧
      (10 ≤ strlen pin → withinLength MAX_PIN_CODE_LENGTH pin = false) := by
  refine ⟨rfl, fun pin => ?_⟩
  simp only [withinLength, strlen, MAX_PIN_CODE_LENGTH, Spec.within, Spec.pinLimit,
    decide_eq_true_eq, decide_eq_false_iff_not]
  exact ⟨trivial, fun h => by omega, fun h => by omega⟩

/-- C3 (counterexample): MAX_UDID_LENGTH is 106, not 40, and a UDID of 41
characters is within that declared limit. -/
theorem C3_long_udid_within_declared_limit :
    MAX_UDID_LENGTH ≠ 40 ∧
    40 < strlen (List.replicate 41 'A') ∧
    withinLength MAX_UDID_LENGTH (List.replicate 41 'A') = true := by
  decide

/-- C3 (amended): MAX_PUBLIC_UDID_LENGTH is 40 and MAX_UDID_LENGTH is 106; a string
is within the public UDID limit exactly when it has at most 40 characters, and
within some declared UDID limit exactly when it has at most 106. -/
theorem C3_udid_limits :
    MAX_PUBLIC_UDID_LENGTH = 40 ∧ MAX_UDID_LENGTH = 106 ∧
    ∀ udid : CString,
      (withinLength MAX_PUBLIC_UDID_LENGTH udid = true ↔ strlen udid ≤ 40) ∧
      ((withinLength MAX_PUBLIC_UDID_LENGTH udid = true ∨
          withinLength MAX_UDID_LENGTH udid = true) ↔ strlen udid ≤ 106) := by
  refine ⟨rfl, rfl, fun udid => ?_⟩
  simp only [withinLength, strlen, MAX_PUBLIC_UDID_LENGTH, MAX_UDID_LENGTH,
    decide_eq_true_eq]
  exact ⟨trivial, by omega⟩

/-! ### Login-state flags -/

theorem NebulaDeviceLoginState.toNat_eq_two_pow (f : NebulaDeviceLoginState) :
    f.toNat = 2 ^ f.bit := by
  cases f <;> rfl

theorem NebulaDeviceLoginState.bit_injective {f g : NebulaDeviceLoginState}
    (h : f.bit = g.bit) : f = g := by
  cases f <;> cases g <;> first | rfl | (exact absurd h (by decide))

theorem foldl_or_testBit (flags : List NebulaDeviceLoginState) (m i : Nat) :
    (flags.foldl (fun m f => m ||| f.toNat) m).testBit i =
      (m.testBit i || flags.any (fun f => f.toNat.testBit i)) := by
  induction flags generalizing m with
  | nil => simp
  | cons f rest ih => simp [ih, Bool.or_assoc]

theorem loginStateMask_testBit (flags : List NebulaDeviceLoginState)
    (f : NebulaDeviceLoginState) :
    (loginStateMask flags).testBit f.bit = true ↔ f ∈ flags := by
  unfold loginStateMask
  rw [foldl_or_testBit]
  simp only [Nat.zero_testBit, Bool.false_or, List.any_eq_true]
  constructor
  · rintro ⟨g, hg, hbit⟩
    rw [g.toNat_eq_two_pow, Nat.testBit_two_pow] at hbit
    have : g = f := NebulaDeviceLoginState.bit_injective (of_decide_eq_true hbit)
    exact this ▸ hg
  · intro hf
    exact ⟨f, hf, by rw [f.toNat_eq_two_pow]; exact Nat.testBit_two_pow_self⟩

theorem and_flag_ne_zero (m : Nat) (f : NebulaDeviceLoginState) :
    m &&& f.toNat ≠ 0 ↔ m.testBit f.bit = true := by
  constructor
  · intro h
    obtain ⟨i, hi⟩ := Nat.ne_zero_implies_bit_true h
    rw [Nat.testBit_and, f.toNat_eq_two_pow, Nat.testBit_two_pow] at hi
    simp only [Bool.and_eq_true, decide_eq_true_eq] at hi
    exact hi.2 ▸ hi.1
  · intro h hz
    have : (m &&& f.toNat).testBit f.bit = true := by
      rw [Nat.testBit_and, h, f.toNat_eq_two_pow, Nat.testBit_two_pow_self]; rfl
    rw [hz] at this
    simp at this

theorem loginStateMask_eq_of_same_flags {s t : List NebulaDeviceLoginState}
    (h : ∀ f, f ∈ s ↔ f ∈ t) : loginStateMask s = loginStateMask t := by
  apply Nat.eq_of_testBit_eq
  intro i
  unfold loginStateMask
  rw [foldl_or_testBit, foldl_or_testBit]
  congr 1
  rw [Bool.eq_iff_iff]
  simp only [List.any_eq_true]
  exact ⟨fun ⟨g, hg, hb⟩ => ⟨g, (h g).1 hg, hb⟩, fun ⟨g, hg, hb⟩ => ⟨g, (h g).2 hg, hb⟩⟩

/-- C4: the three login-state values are non-zero, each is a single bit, they are
pairwise disjoint under bitwise AND; two collections of flags have the same OR mask
exactly when they contain the same flags, and a flag belongs to a collection
exactly when the mask AND the flag is non-zero. -/
theorem C4_login_state_bitmask :
    (∀ f : NebulaDeviceLoginState, f.toNat ≠ 0 ∧ f.toNat = 2 ^ f.bit) ∧
    (∀ f g : NebulaDeviceLoginState, f ≠ g → f.toNat &&& g.toNat = 0) ∧
    (∀ s t : List NebulaDeviceLoginState,
      loginStateMask s = loginStateMask t ↔ ∀ f, f ∈ s ↔ f ∈ t) ∧
    (∀ (s : List NebulaDeviceLoginState) (f : NebulaDeviceLoginState),
      f ∈ s ↔ hasFlag (loginStateMask s) f = true) := by
  have hmem : ∀ (s : List NebulaDeviceLoginState) (f : NebulaDeviceLoginState),
      f ∈ s ↔ hasFlag (loginStateMask s) f = true := by
    intro s f
    unfold hasFlag
    rw [bne_iff_ne, and_flag_ne_zero, loginStateMask_testBit]
  refine ⟨?_, ?_, ?_, hmem⟩
  · intro f; cases f <;> decide
  · intro f g; cases f <;> cases g <;> decide
  · intro s t
    constructor
    · intro h f
      rw [hmem s f, hmem t f, h]
    · exact loginStateMask_eq_of_same_flags

/-! ### Buffer capacities -/

/-- C5: the string members of NebulaClientInfo have capacity 41, 1025, 120 and 129,
each its maximum length plus one, so every field of a client identity within the
limits of the specification fits its buffer together with the terminating NUL. -/
theorem C5_client_info_buffers (c : Spec.ClientIdentity) (h : c.withinLimits) :
    (NebulaClientInfo.sizeof_public_udid = 41 ∧ NebulaClientInfo.sizeof_psk = 1025 ∧
      NebulaClientInfo.sizeof_identity = 120 ∧ NebulaClientInfo.sizeof_secret_id = 129) ∧
    (NebulaClientInfo.sizeof_public_udid = MAX_PUBLIC_UDID_LENGTH + 1 ∧
      NebulaClientInfo.sizeof_psk = MAX_NEBULA_PSK_LENGTH + 1 ∧
      NebulaClientInfo.sizeof_identity = MAX_NEBULA_IDENTITY_LENGTH + 1 ∧
      NebulaClientInfo.sizeof_secret_id = MAX_NEBULA_SECRETID_LENGTH + 1) ∧
    fitsBuffer NebulaClientInfo.sizeof_public_udid c.public_udid = true ∧
    fitsBuffer NebulaClientInfo.sizeof_psk c.psk = true ∧
    fitsBuffer NebulaClientInfo.sizeof_identity c.identity = true ∧
    fitsBuffer NebulaClientInfo.sizeof_secret_id c.secret_id = true := by
  obtain ⟨h1, h2, h3, h4⟩ := h
  simp only [Spec.within, Spec.udidLimit, Spec.pskLimit, Spec.identityLimit,
    Spec.secretIdLimit] at h1 h2 h3 h4
  refine ⟨⟨rfl, rfl, rfl, rfl⟩, ⟨rfl, rfl, rfl, rfl⟩, ?_, ?_, ?_, ?_⟩ <;>
    simp only [fitsBuffer, strlen, NebulaClientInfo.sizeof_public_udid,
      NebulaClientInfo.sizeof_psk, NebulaClientInfo.sizeof_identity,
      NebulaClientInfo.sizeof_secret_id, MAX_PUBLIC_UDID_LENGTH, MAX_NEBULA_PSK_LENGTH,
      MAX_NEBULA_IDENTITY_LENGTH, MAX_NEBULA_SECRETID_LENGTH, decide_eq_true_eq] <;>
    omega

/-- C5 at a concrete identity whose fields are within the limits. -/
theorem C5_client_info_buffers_witness :
    (Spec.ClientIdentity.mk "UDID0001".toList "psk".toList "id".toList
        "secret".toList).withinLimits ∧
    fitsBuffer NebulaClientInfo.sizeof_public_udid "UDID0001".toList = true :=
  ⟨by decide,
    (C5_client_info_buffers
      (Spec.ClientIdentity.mk "UDID0001".toList "psk".toList "id".toList "secret".toList)
      (by decide)).2.2.1⟩

/-- C8: the udid and device_name members of st_UDIDInfo have capacity 41 and 129,
MAX_PUBLIC_UDID_LENGTH + 1 and MAX_DEVICE_NAME_LENGTH + 1, so a UDID of at most 40
characters and a device name of at most 128 fit with the terminating NUL. -/
theorem C8_udid_info_buffers (r : Spec.UDIDRecord) (h : r.withinLimits) :
    (st_UDIDInfo.sizeof_udid = 41 ∧ st_UDIDInfo.sizeof_device_name = 129) ∧
    (st_UDIDInfo.sizeof_udid = MAX_PUBLIC_UDID_LENGTH + 1 ∧
      st_UDIDInfo.sizeof_device_name = MAX_DEVICE_NAME_LENGTH + 1) ∧
    fitsBuffer st_UDIDInfo.sizeof_udid r.udid = true ∧
    fitsBuffer st_UDIDInfo.sizeof_device_name r.device_name = true := by
  obtain ⟨h1, h2⟩ := h
  simp only [Spec.within, Spec.udidLimit, Spec.deviceNameLimit] at h1 h2
  refine ⟨⟨rfl, rfl⟩, ⟨rfl, rfl⟩, ?_, ?_⟩ <;>
    simp only [fitsBuffer, strlen, st_UDIDInfo.sizeof_udid, st_UDIDInfo.sizeof_device_name,
      MAX_PUBLIC_UDID_LENGTH, MAX_DEVICE_NAME_LENGTH, decide_eq_true_eq] <;>
    omega

/-- C8 at a concrete discovery record within the limits. -/
theorem C8_udid_info_buffers_witness :
    (Spec.UDIDRecord.mk "UDID0001".toList "camera".toList).withinLimits ∧
    fitsBuffer st_UDIDInfo.sizeof_device_name "camera".toList = true :=
  ⟨by decide,
    (C8_udid_info_buffers (Spec.UDIDRecord.mk "UDID0001".toList "camera".toList)
      (by decide)).2.2.2⟩

/-! ### Wake-up data -/

theorem NebulaWakeUpData.ofDescriptor_packet_size (w : Spec.WakeupDescriptor) :
    (NebulaWakeUpData.ofDescriptor w).packet_size = w.login_packet.length := by
  have h := w.login_packet_le
  simp only [NebulaWakeUpData.ofDescriptor]
  omega

theorem NebulaWakeUpData.ofDescriptor_buffer_length (w : Spec.WakeupDescriptor) :
    (NebulaWakeUpData.ofDescriptor w).sleep_alive_packet.length = 256 := by
  have h := w.login_packet_le
  simp only [NebulaWakeUpData.ofDescriptor, NebulaWakeUpData.sizeof_sleep_alive_packet,
    NEBULA_MAX_SLEEP_ALIVE_PACKET_SIZE, List.length_append, List.length_replicate]
  omega

theorem NebulaWakeUpData.ofDescriptor_login_packet (w : Spec.WakeupDescriptor) :
    (NebulaWakeUpData.ofDescriptor w).login_packet = w.login_packet := by
  unfold NebulaWakeUpData.login_packet
  rw [NebulaWakeUpData.ofDescriptor_packet_size]
  simp [NebulaWakeUpData.ofDescriptor]

/-- C6: the sleep_alive_packet array has capacity NEBULA_MAX_SLEEP_ALIVE_PACKET_SIZE,
which is 256, and every record a successful Nebula_Device_Get_Sleep_Packet returns
has the full 256-byte array and a packet_size of at most 256, so the packet_size
bytes read from the array are all inside it. -/
theorem C6_sleep_packet_within_buffer (initialized : Bool) (coordinator : SleepCoordinator)
    (ctx : Option NebulaDeviceCtx) (pattern : List UInt8) (protocol : Int) (timeout_ms : Nat)
    (data : List NebulaWakeUpData)
    (h : Nebula_Device_Get_Sleep_Packet initialized coordinator ctx pattern protocol
          timeout_ms = some (.ok data)) :
    NebulaWakeUpData.sizeof_sleep_alive_packet = NEBULA_MAX_SLEEP_ALIVE_PACKET_SIZE ∧
    NEBULA_MAX_SLEEP_ALIVE_PACKET_SIZE = 256 ∧
    ∀ d ∈ data,
      d.sleep_alive_packet.length = NebulaWakeUpData.sizeof_sleep_alive_packet ∧
      d.packet_size ≤ 256 ∧
      d.login_packet.length = d.packet_size := by
  refine ⟨rfl, rfl, ?_⟩
  have hdata : ∃ ws : List Spec.WakeupDescriptor,
      data = ws.map NebulaWakeUpData.ofDescriptor := by
    unfold Nebula_Device_Get_Sleep_Packet at h
    split at h
    · simp at h
    · split at h
      · simp at h
      · simp at h
      · split at h
        · split at h
          · simp only [Option.some.injEq, Except.ok.injEq] at h
            exact ⟨_, h.symm⟩
          · simp at h
        · split at h <;> simp at h
  obtain ⟨ws, rfl⟩ := hdata
  intro d hd
  obtain ⟨w, -, rfl⟩ := List.mem_map.1 hd
  refine ⟨NebulaWakeUpData.ofDescriptor_buffer_length w, ?_, ?_⟩
  · rw [NebulaWakeUpData.ofDescriptor_packet_size]; exact w.login_packet_le
  · rw [NebulaWakeUpData.ofDescriptor_login_packet,
      NebulaWakeUpData.ofDescriptor_packet_size]

/-- C6 at a concrete call: an initialized module, a device context, UDP, and a
coordinator that answers after 10 ms with the descriptor of the wake-up scenario. -/
theorem C6_sleep_packet_within_buffer_witness :
    Nebula_Device_Get_Sleep_Packet true
        (fun _ _ => some (10, [Spec.wakeupScenario (List.replicate 32 7) rfl]))
        (some ⟨"UDID0001".toList, "secret".toList, "profile".toList, none⟩) [1, 2, 3] 1 1000
      = some (.ok [NebulaWakeUpData.ofDescriptor
          (Spec.wakeupScenario (List.replicate 32 7) rfl)]) ∧
    ∀ d ∈ [NebulaWakeUpData.ofDescriptor (Spec.wakeupScenario (List.replicate 32 7) rfl)],
      d.sleep_alive_packet.length = NebulaWakeUpData.sizeof_sleep_alive_packet ∧
      d.packet_size ≤ 256 ∧ d.login_packet.length = d.packet_size :=
  ⟨rfl,
    (C6_sleep_packet_within_buffer true
      (fun _ _ => some (10, [Spec.wakeupScenario (List.replicate 32 7) rfl]))
      (some ⟨"UDID0001".toList, "secret".toList, "profile".toList, none⟩) [1, 2, 3] 1 1000
      [NebulaWakeUpData.ofDescriptor (Spec.wakeupScenario (List.replicate 32 7) rfl)]
      rfl).2.2⟩

/-- C7: the descriptor of the wake-up scenario (ip 10.0.0.5, port 12345, a packet of
32 bytes, interval 2000 ms) is held exactly by a NebulaWakeUpData: the ip with its
terminator fits the 46-byte ip array, 12345 fits the unsigned short port, 32 is at
most the 256-byte packet array, some well-formed record reads back as the
descriptor, and every such record stores the interval as 2 seconds, which is
2000 ms again. -/
theorem C7_wakeup_scenario_representable (packet : List UInt8) (h : packet.length = 32) :
    fitsBuffer NebulaWakeUpData.sizeof_ip (Spec.wakeupScenario packet h).peer_ip = true ∧
    NebulaWakeUpData.sizeof_ip = 46 ∧
    (Spec.wakeupScenario packet h).peer_port < 2 ^ 16 ∧
    (Spec.wakeupScenario packet h).login_packet.length
      ≤ NebulaWakeUpData.sizeof_sleep_alive_packet ∧
    (∃ d : NebulaWakeUpData, d.represents (Spec.wakeupScenario packet h)) ∧
    (∀ d : NebulaWakeUpData, d.represents (Spec.wakeupScenario packet h) →
      d.ip = "10.0.0.5".toList ∧ d.port = 12345 ∧ d.packet_size = 32 ∧
      d.login_packet = packet ∧ d.login_interval_sec = 2 ∧
      d.login_interval_sec * 1000 = 2000) := by
  have hlen := NebulaWakeUpData.ofDescriptor_buffer_length (Spec.wakeupScenario packet h)
  have hsize := NebulaWakeUpData.ofDescriptor_packet_size (Spec.wakeupScenario packet h)
  have hpkt := NebulaWakeUpData.ofDescriptor_login_packet (Spec.wakeupScenario packet h)
  have hip : fitsBuffer NebulaWakeUpData.sizeof_ip "10.0.0.5".toList = true := by decide
  have hsec : (NebulaWakeUpData.ofDescriptor (Spec.wakeupScenario packet h)).login_interval_sec
      = 2 := by
    simp only [NebulaWakeUpData.ofDescriptor, Spec.wakeupScenario]
    norm_num
  have hport : (NebulaWakeUpData.ofDescriptor (Spec.wakeupScenario packet h)).port
      = 12345 := by
    simp only [NebulaWakeUpData.ofDescriptor, Spec.wakeupScenario]
    norm_num
  have hpl : (Spec.wakeupScenario packet h).login_packet.length = 32 := h
  refine ⟨hip, rfl, ?_, ?_, ⟨NebulaWakeUpData.ofDescriptor (Spec.wakeupScenario packet h),
    ?_, rfl, hport, hsize, hpkt, ?_⟩, ?_⟩
  · show 12345 < 2 ^ 16
    norm_num
  · rw [hpl]; decide
  · refine ⟨hip, ?_, ?_, hlen, ?_⟩
    · rw [hport]; norm_num
    · rw [hsize, hpl]; norm_num
    · rw [hsec]; norm_num
  · rw [hsec]; rfl
  · rintro d ⟨-, dip, dport, dsize, dpkt, dsec⟩
    have hms : d.login_interval_sec * 1000 = 2000 := dsec
    exact ⟨dip, dport, dsize.trans h, dpkt, by omega, hms⟩

/-- C7 at a concrete 32-byte packet. -/
theorem C7_wakeup_scenario_representable_witness :
    (List.replicate 32 (0 : UInt8)).length = 32 ∧
    ∃ d : NebulaWakeUpData, d.represents (Spec.wakeupScenario (List.replicate 32 0) rfl) :=
  ⟨rfl, (C7_wakeup_scenario_representable (List.replicate 32 0) rfl).2.2.2.2.1⟩

/-- An interval that is not a whole number of seconds has no exact representation:
no record reads back as a descriptor with an interval of 2500 ms. -/
theorem no_record_for_fractional_seconds (w : Spec.WakeupDescriptor)
    (h : w.recommended_retry_interval_ms = 2500) (d : NebulaWakeUpData) :
    ¬ d.represents w := by
  rintro ⟨-, -, -, -, -, hsec⟩
  omega

/-- The sleep-packet call returns its records whenever the module is initialized,
the context is not null, the protocol is valid and the coordinator answers in
time (or there is no timeout). -/
theorem Nebula_Device_Get_Sleep_Packet_returns (coordinator : SleepCoordinator)
    (ctx : NebulaDeviceCtx) (pattern : List UInt8) (protocol : Int)
    (proto : NebulaSocketProtocol) (timeout_ms t : Nat) (ws : List Spec.WakeupDescriptor)
    (hproto : NebulaSocketProtocol.ofInt protocol = some proto)
    (hreply : coordinator pattern proto = some (t, ws))
    (htime : timeout_ms = 0 ∨ t ≤ timeout_ms) :
    Nebula_Device_Get_Sleep_Packet true coordinator (some ctx) pattern protocol timeout_ms
      = some (.ok (ws.map NebulaWakeUpData.ofDescriptor)) := by
  simp [Nebula_Device_Get_Sleep_Packet, hproto, hreply, htime]

/-! ### LAN discovery -/

theorem searchWrites_length_le (array_cnt timeout_ms : Nat)
    (responses : List (Nat × st_UDIDInfo)) (found : Nat) :
    (searchWrites array_cnt timeout_ms responses found).length + found
      ≤ max array_cnt found := by
  induction responses generalizing found with
  | nil => simp [searchWrites]
  | cons x rest ih =>
    obtain ⟨t, r⟩ := x
    unfold searchWrites
    split
    · simp
    · rename_i hcond
      have := ih (found + 1)
      simp only [List.length_cons]
      omega

theorem searchWrites_index_lt (array_cnt timeout_ms : Nat)
    (responses : List (Nat × st_UDIDInfo)) (found : Nat) :
    ∀ w ∈ searchWrites array_cnt timeout_ms responses found, w.1 < array_cnt := by
  induction responses generalizing found with
  | nil => simp [searchWrites]
  | cons x rest ih =>
    obtain ⟨t, r⟩ := x
    unfold searchWrites
    split
    · simp
    · rename_i hcond
      intro w hw
      rcases List.mem_cons.1 hw with rfl | hw
      · show found < array_cnt
        omega
      · exact ih (found + 1) w hw

theorem applyWrites_length (arr : List st_UDIDInfo) (writes : List (Nat × st_UDIDInfo)) :
    (applyWrites arr writes).length = arr.length := by
  unfold applyWrites
  induction writes generalizing arr with
  | nil => rfl
  | cons w rest ih => simp [ih]

/-- Three devices answer a search with room for two records: two stores, at the
indices 0 and 1, and the call returns 2. -/
theorem search_three_responders_two_slots :
    (Nebula_App_Search_UDID_On_LAN 1
      [(5, ⟨"A".toList, "a".toList⟩), (6, ⟨"B".toList, "b".toList⟩),
        (7, ⟨"C".toList, "c".toList⟩)]
      (some [⟨[], []⟩, ⟨[], []⟩]) 2 1000).writes
      = [(0, ⟨"A".toList, "a".toList⟩), (1, ⟨"B".toList, "b".toList⟩)] ∧
    (Nebula_App_Search_UDID_On_LAN 1
      [(5, ⟨"A".toList, "a".toList⟩), (6, ⟨"B".toList, "b".toList⟩),
        (7, ⟨"C".toList, "c".toList⟩)]
      (some [⟨[], []⟩, ⟨[], []⟩]) 2 1000).ret = .ok 2 := by
  constructor <;> rfl

/-- C9: for every array size N, every role, every array and every sequence of
responders, the LAN search makes at most N stores into udid_array, each at an
index below N, leaves the length of the array unchanged, and a non-error return
value (the number of devices found) is the number of stores and at most N. -/
theorem C9_lan_search_bounded (role : Int) (responses : List (Nat × st_UDIDInfo))
    (udid_array : Option (List st_UDIDInfo)) (N timeout_ms : Nat) :
    (Nebula_App_Search_UDID_On_LAN role responses udid_array N timeout_ms).writes.length ≤ N ∧
    (∀ w ∈ (Nebula_App_Search_UDID_On_LAN role responses udid_array N timeout_ms).writes,
      w.1 < N) ∧
    (∀ n, (Nebula_App_Search_UDID_On_LAN role responses udid_array N timeout_ms).ret = .ok n →
      n ≤ N ∧
      n = (Nebula_App_Search_UDID_On_LAN role responses udid_array N timeout_ms).writes.length) ∧
    (Nebula_App_Search_UDID_On_LAN role responses udid_array N timeout_ms).udid_array.map
        List.length = udid_array.map List.length := by
  have hN : N % 2 ^ 16 ≤ N := Nat.mod_le _ _
  unfold Nebula_App_Search_UDID_On_LAN
  split
  · simp
  · simp
  · rename_i arr hrole
    have hlen := searchWrites_length_le (N % 2 ^ 16) (timeout_ms % 2 ^ 16) responses 0
    have hidx := searchWrites_index_lt (N % 2 ^ 16) (timeout_ms % 2 ^ 16) responses 0
    simp only [Nat.add_zero, Nat.max_zero] at hlen
    dsimp only
    refine ⟨by omega, fun w hw => lt_of_lt_of_le (hidx w hw) hN, ?_, ?_⟩
    · intro n hn
      simp only [Except.ok.injEq] at hn
      subst hn
      exact ⟨by omega, rfl⟩
    · simp [applyWrites_length]

/-! ### The client restart token -/

theorem readJsonString_escape (s : CString) (rest : List Char) :
    readJsonString false (jsonEscape s ++ QUOTE :: rest) = some (s, rest) := by
  induction s with
  | nil => simp [jsonEscape, readJsonString]
  | cons c s ih =>
    unfold jsonEscape
    by_cases hc : c = QUOTE ∨ c = BACKSLASH
    · rw [if_pos hc]
      have hq : BACKSLASH ≠ QUOTE := by decide
      simp only [List.cons_append, readJsonString, if_neg hq, if_true, if_pos hc,
        List.append_eq, ih, Option.map_some']
    · rw [if_neg hc]
      have h1 : c ≠ QUOTE := fun h => hc (Or.inl h)
      have h2 : c ≠ BACKSLASH := fun h => hc (Or.inr h)
      simp only [List.cons_append, readJsonString, if_neg h1, if_neg h2,
        List.append_eq, ih, Option.map_some']

theorem expectText_append (text rest : List Char) :
    expectText text (text ++ rest) = some rest := by
  induction text with
  | nil => cases rest <;> rfl
  | cons l text ih => simp [expectText, ih]

theorem expectText_cons_append (c : Char) (text rest : List Char) :
    expectText (c :: text) (c :: (text ++ rest)) = some rest :=
  expectText_append (c :: text) rest

theorem parseClientToken_clientToken (psk identity secret_id : CString) :
    parseClientToken (clientToken psk identity secret_id)
      = some (psk, identity, secret_id) := by
  unfold clientToken parseClientToken
  simp only [List.cons_append, List.append_assoc, if_true, expectText_append,
    expectText_cons_append, Option.some_bind, readJsonString_escape]

/-- C10: for every client identity whose public_udid, psk, identity and secret_id
are set and within the limits, Nebula_Client_To_String returns a token, and
Nebula_Client_New_From_String, called in an initialized module with memory
available, the same public_udid and that token, succeeds with a context that has
the same public_udid, psk, identity and secret_id. -/
theorem C10_client_token_roundtrip (c : Spec.ClientIdentity) (h : c.withinLimits) :
    ∃ token : CString,
      Nebula_Client_To_String (NebulaClientCtx.ofIdentity c) = some token ∧
      Nebula_Client_New_From_String true true (some c.public_udid) (some token) false
        = .ok (NebulaClientCtx.ofIdentity c) := by
  obtain ⟨h1, h2, h3, h4⟩ := h
  refine ⟨clientToken c.psk c.identity c.secret_id, rfl, ?_⟩
  have w1 : withinLength MAX_PUBLIC_UDID_LENGTH c.public_udid = true :=
    decide_eq_true h1
  have w2 : withinLength MAX_NEBULA_PSK_LENGTH c.psk = true := decide_eq_true h2
  have w3 : withinLength MAX_NEBULA_IDENTITY_LENGTH c.identity = true := decide_eq_true h3
  have w4 : withinLength MAX_NEBULA_SECRETID_LENGTH c.secret_id = true := decide_eq_true h4
  simp [Nebula_Client_New_From_String, parseClientToken_clientToken, w1, w2, w3, w4,
    NebulaClientCtx.ofIdentity]

/-- C10 at a concrete identity whose psk contains a quote and a backslash. -/
theorem C10_client_token_roundtrip_witness :
    (Spec.ClientIdentity.mk "UDID0001".toList [QUOTE, 'k', BACKSLASH] "id".toList
        "secret".toList).withinLimits ∧
    ∃ token : CString,
      Nebula_Client_To_String (NebulaClientCtx.ofIdentity
        (Spec.ClientIdentity.mk "UDID0001".toList [QUOTE, 'k', BACKSLASH] "id".toList
          "secret".toList)) = some token ∧
      Nebula_Client_New_From_String true true (some "UDID0001".toList) (some token) false
        = .ok (NebulaClientCtx.ofIdentity
            (Spec.ClientIdentity.mk "UDID0001".toList [QUOTE, 'k', BACKSLASH] "id".toList
              "secret".toList)) :=
  ⟨by decide,
    C10_client_token_roundtrip
      (Spec.ClientIdentity.mk "UDID0001".toList [QUOTE, 'k', BACKSLASH] "id".toList
        "secret".toList) (by decide)⟩

/-! ### Corrupt and truncated restart tokens -/

theorem readJsonString_sound (input : List Char) :
    (∀ s rest, readJsonString false input = some (s, rest) →
      input = jsonEscape s ++ QUOTE :: rest) ∧
    (∀ s rest, readJsonString true input = some (s, rest) →
      ∃ c t, s = c :: t ∧ (c = QUOTE ∨ c = BACKSLASH) ∧
        input = c :: (jsonEscape t ++ QUOTE :: rest)) := by
  induction input with
  | nil => constructor <;> intro s rest h <;> simp [readJsonString] at h
  | cons c tl ih =>
    obtain ⟨ihf, iht⟩ := ih
    constructor
    · intro s rest h
      unfold readJsonString at h
      by_cases hq : c = QUOTE
      · rw [if_pos hq] at h
        simp only [Option.some.injEq, Prod.mk.injEq] at h
        obtain ⟨rfl, rfl⟩ := h
        simp [jsonEscape, hq]
      · rw [if_neg hq] at h
        by_cases hb : c = BACKSLASH
        · rw [if_pos hb] at h
          obtain ⟨e, t, rfl, he, rfl⟩ := iht s rest h
          simp [jsonEscape, he, hb]
        · rw [if_neg hb] at h
          obtain ⟨p, hp, hmap⟩ := Option.map_eq_some'.1 h
          simp only [Prod.mk.injEq] at hmap
          obtain ⟨rfl, rfl⟩ := hmap
          have := ihf p.1 p.2 hp
          have hc : ¬ (c = QUOTE ∨ c = BACKSLASH) := fun h => h.elim hq hb
          simp [jsonEscape, hc, ← this]
    · intro s rest h
      unfold readJsonString at h
      by_cases hc : c = QUOTE ∨ c = BACKSLASH
      · rw [if_pos hc] at h
        obtain ⟨p, hp, hmap⟩ := Option.map_eq_some'.1 h
        simp only [Prod.mk.injEq] at hmap
        obtain ⟨rfl, rfl⟩ := hmap
        exact ⟨c, p.1, rfl, hc, by rw [← ihf p.1 p.2 hp]⟩
      · rw [if_neg hc] at h
        exact absurd h (by simp)

theorem expectText_sound (text input rest : List Char)
    (h : expectText text input = some rest) : input = text ++ rest := by
  induction text generalizing input with
  | nil =>
    cases input <;> simp_all [expectText]
  | cons l text ih =>
    cases input with
    | nil => simp [expectText] at h
    | cons c input =>
      unfold expectText at h
      by_cases hl : l = c
      · rw [if_pos hl] at h
        rw [ih input h, hl]
        rfl
      · rw [if_neg hl] at h
        exact absurd h (by simp)

theorem parseClientToken_sound (input psk identity secret_id : CString)
    (h : parseClientToken input = some (psk, identity, secret_id)) :
    input = clientToken psk identity secret_id := by
  unfold parseClientToken at h
  cases input with
  | nil => simp at h
  | cons c input =>
    simp only at h
    by_cases hc : c = LBRACE
    · rw [if_pos hc] at h
      obtain ⟨r1, h1, h⟩ := Option.bind_eq_some.1 h
      obtain ⟨p, hp, h⟩ := Option.bind_eq_some.1 h
      obtain ⟨r2, h2, h⟩ := Option.bind_eq_some.1 h
      obtain ⟨i, hi, h⟩ := Option.bind_eq_some.1 h
      obtain ⟨r3, h3, h⟩ := Option.bind_eq_some.1 h
      obtain ⟨t, ht, h⟩ := Option.bind_eq_some.1 h
      by_cases hend : t.2 = [RBRACE]
      · rw [if_pos hend] at h
        simp only [Option.some.injEq, Prod.mk.injEq] at h
        obtain ⟨rfl, rfl, rfl⟩ := h
        have e1 := expectText_sound _ _ _ h1
        have e2 := (readJsonString_sound r1).1 _ _ hp
        have e3 := expectText_sound _ _ _ h2
        have e4 := (readJsonString_sound r2).1 _ _ hi
        have e5 := expectText_sound _ _ _ h3
        have e6 := (readJsonString_sound r3).1 _ _ ht
        rw [hc, e1, e2, e3, e4, e5, e6, hend]
        simp [clientToken]
      · rw [if_neg hend] at h
        exact absurd h (by simp)
    · rw [if_neg hc] at h
      exact absurd h (by simp)

theorem producedByToString_iff (data : CString) :
    producedByToString data ↔ (parseClientToken data).isSome = true := by
  constructor
  · rintro ⟨ctx, h⟩
    unfold Nebula_Client_To_String at h
    split at h
    · simp only [Option.some.injEq] at h
      rw [← h, parseClientToken_clientToken]
      rfl
    · simp at h
  · intro h
    obtain ⟨⟨psk, identity, secret_id⟩, hp⟩ := Option.isSome_iff_exists.1 h
    refine ⟨⟨[], some psk, some identity, some secret_id⟩, ?_⟩
    rw [parseClientToken_sound data psk identity secret_id hp]
    rfl

theorem parseClientToken_append (psk identity secret_id ext : CString) (hext : ext ≠ []) :
    parseClientToken (clientToken psk identity secret_id ++ ext) = none := by
  have hr := readJsonString_escape secret_id (RBRACE :: ext)
  unfold clientToken parseClientToken
  simp only [List.cons_append, List.append_assoc, if_true, expectText_append,
    expectText_cons_append, Option.some_bind, readJsonString_escape, List.nil_append, hr]
  simp [hext]

theorem truncated_token_not_produced (token : CString) (n : Nat)
    (htoken : producedByToString token) (hn : n < token.length) :
    ¬ producedByToString (token.take n) := by
  intro hcut
  obtain ⟨ctx, h⟩ := hcut
  unfold Nebula_Client_To_String at h
  split at h
  · rename_i psk identity secret_id _ _ _
    simp only [Option.some.injEq] at h
    have hsplit : token = clientToken psk identity secret_id ++ token.drop n := by
      rw [h]; exact (List.take_append_drop n token).symm
    have hne : token.drop n ≠ [] := by
      intro hd
      have := congrArg List.length hd
      simp at this
      omega
    have hnone := parseClientToken_append psk identity secret_id _ hne
    rw [← hsplit] at hnone
    have hsome := (producedByToString_iff token).1 htoken
    rw [hnone] at hsome
    simp at hsome
  · simp at h

/-- C11: a string that no call of Nebula_Client_To_String produces (a corrupt token)
makes Nebula_Client_New_From_String fail: in an initialized module the result is
NEBULA_ER_INVALID_ARG whatever the other arguments are, and in no case is a client
context produced.  Every truncation of a restart token is such a string. -/
theorem C11_corrupt_token_rejected (data : CString) (h : ¬ producedByToString data) :
    (∀ (alloc_ok : Bool) (public_udid : Option CString) (ctx_is_null : Bool),
      Nebula_Client_New_From_String true alloc_ok public_udid (some data) ctx_is_null
        = .error NEBULA_ER_INVALID_ARG) ∧
    (∀ (initialized alloc_ok : Bool) (public_udid : Option CString) (ctx_is_null : Bool)
        (ctx : NebulaClientCtx),
      Nebula_Client_New_From_String initialized alloc_ok public_udid (some data) ctx_is_null
        ≠ .ok ctx) ∧
    (∀ (token : CString) (n : Nat), producedByToString token → n < token.length →
      ∀ (alloc_ok : Bool) (public_udid : Option CString) (ctx_is_null : Bool),
        Nebula_Client_New_From_String true alloc_ok public_udid (some (token.take n))
          ctx_is_null = .error NEBULA_ER_INVALID_ARG) := by
  have key : ∀ d : CString, ¬ producedByToString d →
      ∀ (alloc_ok : Bool) (public_udid : Option CString) (ctx_is_null : Bool),
        Nebula_Client_New_From_String true alloc_ok public_udid (some d) ctx_is_null
          = .error NEBULA_ER_INVALID_ARG := by
    intro d hd alloc_ok public_udid ctx_is_null
    have hnone : parseClientToken d = none := by
      rw [producedByToString_iff] at hd
      exact Option.not_isSome_iff_eq_none.1 hd
    cases ctx_is_null <;> cases public_udid <;>
      simp [Nebula_Client_New_From_String, hnone]
  refine ⟨key data h, ?_, ?_⟩
  · intro initialized alloc_ok public_udid ctx_is_null ctx
    cases initialized
    · simp [Nebula_Client_New_From_String]
    · rw [key data h]
      simp
  · intro token n htoken hn
    exact key _ (truncated_token_not_produced token n htoken hn)

/-- C11 at the corrupt token `garbage`. -/
theorem C11_corrupt_token_rejected_witness :
    ¬ producedByToString "garbage".toList ∧
    Nebula_Client_New_From_String true true (some "UDID0001".toList)
      (some "garbage".toList) false = .error NEBULA_ER_INVALID_ARG :=
  ⟨by rw [producedByToString_iff]; decide,
    (C11_corrupt_token_rejected "garbage".toList
      (by rw [producedByToString_iff]; decide)).1 true (some "UDID0001".toList) false⟩

/-! ### Declarations -/

/-- C15: each of Nebula_Device_Bind, Nebula_Client_Bind, Nebula_Device_Push_Notification,
Nebula_Client_Send_Command and Nebula_Client_Wakeup_Device is declared with a
parameter `unsigned int timeout_msec`, the timeout in milliseconds, and a parameter
`unsigned int *abort_flag`, a pointer to a flag the caller can set from outside the
call; each returns an `int`. -/
theorem C15_cancellable_operations_parameters :
    ∀ op ∈ [Operation.Nebula_Device_Bind, Operation.Nebula_Client_Bind,
        Operation.Nebula_Device_Push_Notification, Operation.Nebula_Client_Send_Command,
        Operation.Nebula_Client_Wakeup_Device],
      (⟨"unsigned int", "timeout_msec"⟩ : Param) ∈ op.params ∧
      (⟨"unsigned int *", "abort_flag"⟩ : Param) ∈ op.params ∧
      op.timeoutParam = some ⟨"unsigned int", "timeout_msec"⟩ ∧
      op.returnType = CReturn.int := by
  decide

/-- C15 at Nebula_Client_Wakeup_Device, one of the five operations. -/
theorem C15_cancellable_operations_parameters_witness :
    Operation.Nebula_Client_Wakeup_Device
      ∈ [Operation.Nebula_Device_Bind, Operation.Nebula_Client_Bind,
        Operation.Nebula_Device_Push_Notification, Operation.Nebula_Client_Send_Command,
        Operation.Nebula_Client_Wakeup_Device] ∧
    (⟨"unsigned int", "timeout_msec"⟩ : Param)
      ∈ Operation.Nebula_Client_Wakeup_Device.params ∧
    (⟨"unsigned int *", "abort_flag"⟩ : Param)
      ∈ Operation.Nebula_Client_Wakeup_Device.params :=
  ⟨by decide,
    (C15_cancellable_operations_parameters Operation.Nebula_Client_Wakeup_Device
      (by decide)).1,
    (C15_cancellable_operations_parameters Operation.Nebula_Client_Wakeup_Device
      (by decide)).2.1⟩

/-! ### Device binding -/

theorem Nebula_Device_Bind_of_bound (s : DeviceSession) (hs : s.bound = true)
    (pin_code psk : CString) (timeout_msec : Nat) (reply : BindReply) (abort : Option Nat) :
    Nebula_Device_Bind true (some s) (some pin_code) (some psk) timeout_msec reply abort
      = some ⟨.error .AlreadyBound, some s⟩ := by
  simp [Nebula_Device_Bind, hs]

theorem Nebula_Device_Bind_ok_bound (s t : DeviceSession) (pin_code psk : Option CString)
    (timeout_msec : Nat) (reply : BindReply) (abort : Option Nat)
    (h : Nebula_Device_Bind true (some s) pin_code psk timeout_msec reply abort
          = some ⟨.ok (), some t⟩) :
    t.ctx.psk = psk ∧ t.bound = true := by
  unfold Nebula_Device_Bind at h
  simp only [Bool.not_true, Bool.false_eq_true, if_false] at h
  split at h
  · rename_i s0 pin key
    split at h
    · simp at h
    · split at h
      · simp at h
      · split at h
        · simp at h
        · split at h
          · simp only [Option.some.injEq, BindOutcome.mk.injEq, true_and] at h
            subst h
            exact ⟨rfl, rfl⟩
          · simp at h
        · simp at h
        · simp at h
  · simp at h

/-- C12: once a bind has succeeded on a device context, the PSK of that bind is
stored, and every later call of Nebula_Device_Bind on the context, in an initialized
module and with any PIN, any PSK, any timeout, any server answer and any abort, fails
with AlreadyBound and leaves the session, and so the stored PSK, as it was. -/
theorem C12_second_bind_rejected (s t : DeviceSession) (pin_code psk : Option CString)
    (timeout_msec : Nat) (reply : BindReply) (abort : Option Nat)
    (h : Nebula_Device_Bind true (some s) pin_code psk timeout_msec reply abort
          = some ⟨.ok (), some t⟩) :
    t.ctx.psk = psk ∧ t.ctx.psk.isSome = true ∧
    ∀ (pin2 psk2 : CString) (timeout2 : Nat) (reply2 : BindReply) (abort2 : Option Nat),
      Nebula_Device_Bind true (some t) (some pin2) (some psk2) timeout2 reply2 abort2
          = some ⟨.error .AlreadyBound, some t⟩ ∧
      ((Nebula_Device_Bind true (some t) (some pin2) (some psk2) timeout2 reply2
          abort2).bind BindOutcome.session).map (fun u => u.ctx.psk) = some t.ctx.psk := by
  obtain ⟨hpsk, hbound⟩ :=
    Nebula_Device_Bind_ok_bound s t pin_code psk timeout_msec reply abort h
  refine ⟨hpsk, hbound, ?_⟩
  intro pin2 psk2 timeout2 reply2 abort2
  rw [Nebula_Device_Bind_of_bound t hbound]
  exact ⟨rfl, rfl⟩

/-- C12 at a concrete device: a logged-in, unbound device binds with PIN 1234 and
the PSK key1; the bind server accepts after 10 ms. -/
theorem C12_second_bind_rejected_witness :
    Nebula_Device_Bind true
        (some ⟨⟨"UDID0001".toList, "secret".toList, "profile".toList, none⟩, true⟩)
        (some "1234".toList) (some "key1".toList) 1000 (some (10, true)) none
      = some ⟨.ok (), some ⟨⟨"UDID0001".toList, "secret".toList, "profile".toList,
          some "key1".toList⟩, true⟩⟩ ∧
    Nebula_Device_Bind true
        (some ⟨⟨"UDID0001".toList, "secret".toList, "profile".toList,
          some "key1".toList⟩, true⟩)
        (some "9999".toList) (some "key2".toList) 0 (some (5, true)) none
      = some ⟨.error .AlreadyBound, some ⟨⟨"UDID0001".toList, "secret".toList,
          "profile".toList, some "key1".toList⟩, true⟩⟩ :=
  ⟨rfl,
    ((C12_second_bind_rejected
      ⟨⟨"UDID0001".toList, "secret".toList, "profile".toList, none⟩, true⟩
      ⟨⟨"UDID0001".toList, "secret".toList, "profile".toList, some "key1".toList⟩, true⟩
      (some "1234".toList) (some "key1".toList) 1000 (some (10, true)) none rfl).2.2
      "9999".toList "key2".toList 0 (some (5, true)) none).1⟩

/-! ### Client wake-up and connection -/

/-- C16: for a client that is not bound (its psk, identity or secret_id is not
stored), Nebula_Client_Wakeup_Device in an initialized module fails with
NEBULA_ER_CLIENT_NOT_BIND_TO_DEVICE, a code its header documents, having emitted no
wake packet and taken no time, whatever the descriptor, the timeout (0 included),
the device and the abort flag do. -/
theorem C16_wakeup_unbound_fails_fast (c : NebulaClientCtx)
    (h : c.psk = none ∨ c.identity = none ∨ c.secret_id = none)
    (descriptor : Spec.WakeupDescriptor) (timeout_msec : Nat) (online abort : Option Nat) :
    Nebula_Client_Wakeup_Device true (some c) descriptor timeout_msec online abort
      = some ⟨.error (.code NEBULA_ER_CLIENT_NOT_BIND_TO_DEVICE), [], 0⟩ ∧
    StatusName.nebula NEBULA_ER_CLIENT_NOT_BIND_TO_DEVICE
      ∈ Operation.Nebula_Client_Wakeup_Device.documentedErrors := by
  have hb : c.bound = false := by
    unfold NebulaClientCtx.bound
    rcases h with h | h | h <;> simp [h]
  refine ⟨?_, by decide⟩
  simp [Nebula_Client_Wakeup_Device, hb]

/-- C16 at a freshly created client, with a timeout of 0 and a device that never
comes online: the call returns at once instead of blocking. -/
theorem C16_wakeup_unbound_fails_fast_witness :
    Nebula_Client_Wakeup_Device true (some ⟨"UDID0001".toList, none, none, none⟩)
        (Spec.wakeupScenario (List.replicate 32 0) rfl) 0 none none
      = some ⟨.error (.code NEBULA_ER_CLIENT_NOT_BIND_TO_DEVICE), [], 0⟩ :=
  (C16_wakeup_unbound_fails_fast ⟨"UDID0001".toList, none, none, none⟩ (Or.inl rfl)
    (Spec.wakeupScenario (List.replicate 32 0) rfl) 0 none none).1

/-- A bound client does emit wake packets: with the descriptor of the wake-up
scenario, a timeout of 10000 ms and a device that never comes online, the call
returns TIMEOUT after 10000 ms and six packets (at 0, 2000, ..., 10000 ms). -/
theorem wakeup_scenario_times_out :
    Nebula_Client_Wakeup_Device true
        (some ⟨"UDID0001".toList, some "k".toList, some "i".toList, some "s".toList⟩)
        (Spec.wakeupScenario (List.replicate 32 0) rfl) 10000 none none
      = some ⟨.error (.code NEBULA_ER_TIMEOUT),
          List.replicate 6 (List.replicate 32 0), 10000⟩ := by
  rfl

theorem Nebula_Client_Connect_of_called (s : ClientSession) (h : s.connect_called = true)
    (thread_ok : Bool) :
    Nebula_Client_Connect true thread_ok (some s)
      = (.error NEBULA_ER_LOGIN_ALREADY_CALLED, some s) := by
  simp [Nebula_Client_Connect, h]

theorem Nebula_Device_Login_of_called (s : DeviceSession) (login_in_progress : Bool)
    (h : s.logged_in = true ∨ login_in_progress = true) (resource_ok : Bool)
    (reply : LoginReply) :
    Nebula_Device_Login true resource_ok (some s) login_in_progress reply
      = (.error NEBULA_ER_LOGIN_ALREADY_CALLED, some s) := by
  have hor : (s.logged_in || login_in_progress) = true := by
    rcases h with h | h <;> simp [h]
  simp [Nebula_Device_Login, lifecycleCheck, hor]

/-- C17: on a device context whose login is in progress or established, a login call
in an initialized module fails with NEBULA_ER_LOGIN_ALREADY_CALLED and leaves the
session as it was, and so does Nebula_Client_Connect on a client context on which
it has already been called; a successful login or connect puts the context in that
state, so the call after it fails this way. -/
theorem C17_second_login_rejected (s : DeviceSession) (login_in_progress : Bool)
    (c : ClientSession) (hd : s.logged_in = true ∨ login_in_progress = true)
    (hc : c.connect_called = true) :
    (∀ (resource_ok : Bool) (reply : LoginReply),
      Nebula_Device_Login true resource_ok (some s) login_in_progress reply
        = (.error NEBULA_ER_LOGIN_ALREADY_CALLED, some s)) ∧
    (∀ thread_ok : Bool,
      Nebula_Client_Connect true thread_ok (some c)
        = (.error NEBULA_ER_LOGIN_ALREADY_CALLED, some c)) ∧
    (∀ (u : DeviceSession) (ok1 ok2 busy : Bool) (reply1 reply2 : LoginReply),
      (Nebula_Device_Login true ok1 (some u) false reply1).1 = .ok () →
      (Nebula_Device_Login true ok2 (Nebula_Device_Login true ok1 (some u) false reply1).2
        busy reply2).1 = .error NEBULA_ER_LOGIN_ALREADY_CALLED) ∧
    (∀ (u : ClientSession) (ok2 : Bool),
      (Nebula_Client_Connect true true (some u)).1 = .ok () →
      (Nebula_Client_Connect true ok2 (Nebula_Client_Connect true true (some u)).2).1
        = .error NEBULA_ER_LOGIN_ALREADY_CALLED) := by
  refine ⟨fun resource_ok reply => Nebula_Device_Login_of_called s login_in_progress hd
    resource_ok reply, fun thread_ok => Nebula_Client_Connect_of_called c hc thread_ok,
    ?_, ?_⟩
  · intro u ok1 ok2 busy reply1 reply2 hok
    cases hu : u.logged_in <;> cases ok1 <;> cases reply1 <;>
      simp [Nebula_Device_Login, lifecycleCheck, hu] at hok ⊢
  · intro u ok2 hok
    cases hu : u.connect_called
    · simp [Nebula_Client_Connect, hu]
    · simp [Nebula_Client_Connect, hu] at hok

/-- C17 at a device that is logged in and a client that is already connecting. -/
theorem C17_second_login_rejected_witness :
    Nebula_Device_Login true true
        (some ⟨⟨"UDID0001".toList, "secret".toList, "profile".toList, none⟩, true⟩) false
        LoginReply.accepted
      = (.error NEBULA_ER_LOGIN_ALREADY_CALLED,
          some ⟨⟨"UDID0001".toList, "secret".toList, "profile".toList, none⟩, true⟩) ∧
    Nebula_Client_Connect true true (some ⟨⟨"UDID0001".toList, none, none, none⟩, true⟩)
      = (.error NEBULA_ER_LOGIN_ALREADY_CALLED,
          some ⟨⟨"UDID0001".toList, none, none, none⟩, true⟩) :=
  ⟨(C17_second_login_rejected
      ⟨⟨"UDID0001".toList, "secret".toList, "profile".toList, none⟩, true⟩ false
      ⟨⟨"UDID0001".toList, none, none, none⟩, true⟩ (Or.inl rfl) rfl).1 true
      LoginReply.accepted,
    (C17_second_login_rejected
      ⟨⟨"UDID0001".toList, "secret".toList, "profile".toList, none⟩, true⟩ false
      ⟨⟨"UDID0001".toList, none, none, none⟩, true⟩ (Or.inl rfl) rfl).2.1 true⟩

/-- A first login on a fresh device context succeeds and marks it logged in. -/
theorem first_device_login_succeeds :
    Nebula_Device_Login true true
        (some ⟨⟨"UDID0001".toList, "secret".toList, "profile".toList, none⟩, false⟩) false
        LoginReply.accepted
      = (.ok (),
          some ⟨⟨"UDID0001".toList, "secret".toList, "profile".toList, none⟩, true⟩) := by
  rfl

/-! ### Configuration setters -/

/-- C18: once a module is initialized, every configuration setter, TUTK_Set_Log_Attr,
Nebula_Set_Log_Attr, TUTK_SDK_Set_Region and TUTK_SDK_Set_License_Key, fails with
TUTK_ER_ALREADY_INITIALIZED, which is -1001, for every argument, and leaves the
configuration unchanged. -/
theorem C18_setters_after_initialization (cfg : TUTKConfig) (log : LogAttr) :
    (∀ logAttr : LogAttr,
      TUTK_Set_Log_Attr true log logAttr = (TUTK_ER_ALREADY_INITIALIZED, log)) ∧
    (∀ logAttr : LogAttr,
      Nebula_Set_Log_Attr true log logAttr
        = (.error (StatusName.tutk TUTKError.TUTK_ER_ALREADY_INITIALIZED), log)) ∧
    (∀ region : Int,
      TUTK_SDK_Set_Region true cfg region = (TUTK_ER_ALREADY_INITIALIZED, cfg)) ∧
    (∀ key : Option CString,
      TUTK_SDK_Set_License_Key true cfg key = (TUTK_ER_ALREADY_INITIALIZED, cfg)) ∧
    TUTK_ER_ALREADY_INITIALIZED = -1001 ∧
    TUTKError.TUTK_ER_ALREADY_INITIALIZED.toInt = TUTK_ER_ALREADY_INITIALIZED := by
  exact ⟨fun _ => rfl, fun _ => rfl, fun _ => rfl, fun _ => rfl, rfl, rfl⟩

/-- Before initialization the setters do change the configuration. -/
theorem setters_before_initialization :
    TUTK_SDK_Set_Region false ⟨REGION_RESERVED, none⟩ REGION_EU
      = (TUTK_ER_NoERROR, ⟨REGION_EU, none⟩) ∧
    TUTK_SDK_Set_License_Key false ⟨REGION_EU, none⟩ (some "key".toList)
      = (TUTK_ER_NoERROR, ⟨REGION_EU, some "key".toList⟩) ∧
    TUTK_Set_Log_Attr false ⟨none, logLevel_t.LEVEL_SILENCE, 0, 0⟩
        ⟨some "log".toList, logLevel_t.LEVEL_INFO, 1024, 2⟩
      = (TUTK_ER_NoERROR, ⟨some "log".toList, logLevel_t.LEVEL_INFO, 1024, 2⟩) ∧
    Nebula_Set_Log_Attr false ⟨none, logLevel_t.LEVEL_SILENCE, 0, 0⟩
        ⟨some "log".toList, logLevel_t.LEVEL_INFO, 1024, 2⟩
      = (.ok (), ⟨some "log".toList, logLevel_t.LEVEL_INFO, 1024, 2⟩) := by
  refine ⟨rfl, rfl, rfl, rfl⟩

/-! ### Device creation -/

/-- C19: in an initialized module Nebula_Device_New returns NEBULA_ER_INVALID_ARG
whenever udid, secret_id, profile, one of the three handlers or ctx is null or the
profile is longer than MAX_PROFILE_LENGTH, which is 45000; no call that fails
produces a device context; and with nothing null and resources available a profile
of exactly 45000 characters is accepted, while one of 45001 is rejected. -/
theorem C19_device_new_invalid_arguments (alloc_ok thread_ok : Bool) (a : DeviceNewArgs)
    (h : a.invalid) :
    Nebula_Device_New true alloc_ok thread_ok a = .error NEBULA_ER_INVALID_ARG ∧
    MAX_PROFILE_LENGTH = 45000 ∧
    (∀ (udid secret_id profile : CString), strlen profile = 45000 →
      Nebula_Device_New true true true ⟨some udid, some secret_id, some profile, true, true,
          true, true⟩ = .ok ⟨udid, secret_id, profile, none⟩) ∧
    (∀ (udid secret_id profile : CString), strlen profile = 45001 →
      Nebula_Device_New true true true ⟨some udid, some secret_id, some profile, true, true,
          true, true⟩ = .error NEBULA_ER_INVALID_ARG) := by
  refine ⟨?_, rfl, ?_, ?_⟩
  · obtain ⟨udid, secret_id, profile, ch, ih, sh, ctx⟩ := a
    unfold DeviceNewArgs.invalid at h
    simp only at h
    rcases h with h | h | h | h | h | h | h | ⟨p, hp, hlen⟩
    · subst h; simp [Nebula_Device_New]
    · subst h; cases udid <;> simp [Nebula_Device_New]
    · subst h; cases udid <;> cases secret_id <;> simp [Nebula_Device_New]
    · subst h; cases udid <;> cases secret_id <;> cases profile <;>
        simp [Nebula_Device_New]
    · subst h; cases udid <;> cases secret_id <;> cases profile <;>
        simp [Nebula_Device_New]
    · subst h; cases udid <;> cases secret_id <;> cases profile <;>
        simp [Nebula_Device_New]
    · subst h; cases udid <;> cases secret_id <;> cases profile <;>
        simp [Nebula_Device_New]
    · subst hp
      cases udid <;> cases secret_id <;> simp [Nebula_Device_New, hlen]
  · intro udid secret_id profile hlen
    simp [Nebula_Device_New, hlen, MAX_PROFILE_LENGTH]
  · intro udid secret_id profile hlen
    simp [Nebula_Device_New, hlen, MAX_PROFILE_LENGTH]

/-- C19 at a call with a null udid. -/
theorem C19_device_new_invalid_arguments_witness :
    (DeviceNewArgs.mk none (some "secret".toList) (some "profile".toList) true true true
      true).invalid ∧
    Nebula_Device_New true true true
        ⟨none, some "secret".toList, some "profile".toList, true, true, true, true⟩
      = .error NEBULA_ER_INVALID_ARG :=
  ⟨Or.inl rfl,
    (C19_device_new_invalid_arguments true true
      ⟨none, some "secret".toList, some "profile".toList, true, true, true, true⟩
      (Or.inl rfl)).1⟩

/-! ### Module lifecycle -/

/-- C22: the log levels are strictly ordered LEVEL_VERBOSE < LEVEL_DEBUG < LEVEL_INFO <
LEVEL_WARNING < LEVEL_ERROR < LEVEL_SILENCE; under the rule that a message is logged
when its level is log_level or higher, no message level from LEVEL_VERBOSE to
LEVEL_ERROR is logged with log_level LEVEL_SILENCE, every one is logged with
log_level LEVEL_VERBOSE, and a message level suppressed at one log_level stays
suppressed at every higher log_level. -/
theorem C22_log_levels_ordered :
    (logLevel_t.LEVEL_VERBOSE.toInt < logLevel_t.LEVEL_DEBUG.toInt ∧
      logLevel_t.LEVEL_DEBUG.toInt < logLevel_t.LEVEL_INFO.toInt ∧
      logLevel_t.LEVEL_INFO.toInt < logLevel_t.LEVEL_WARNING.toInt ∧
      logLevel_t.LEVEL_WARNING.toInt < logLevel_t.LEVEL_ERROR.toInt ∧
      logLevel_t.LEVEL_ERROR.toInt < logLevel_t.LEVEL_SILENCE.toInt) ∧
    (∀ level : logLevel_t, level.isMessageLevel = true ↔ level ≠ logLevel_t.LEVEL_SILENCE) ∧
    (∀ level : logLevel_t, level.isMessageLevel = true →
      messageLogged logLevel_t.LEVEL_SILENCE.toInt level.toInt = false) ∧
    (∀ level : logLevel_t, messageLogged logLevel_t.LEVEL_VERBOSE.toInt level.toInt = true) ∧
    (∀ (lower higher level : logLevel_t), lower.toInt ≤ higher.toInt →
      messageLogged lower.toInt level.toInt = false →
      messageLogged higher.toInt level.toInt = false) ∧
    (∀ (lower higher level : Int), lower ≤ higher →
      messageLogged lower level = false → messageLogged higher level = false) := by
  have mono : ∀ (lower higher level : Int), lower ≤ higher →
      messageLogged lower level = false → messageLogged higher level = false := by
    intro lower higher level hle h
    simp only [messageLogged, decide_eq_false_iff_not, not_le] at h ⊢
    omega
  refine ⟨by decide, ?_, ?_, ?_, ?_, mono⟩
  · intro level; cases level <;> decide
  · intro level; cases level <;> decide
  · intro level; cases level <;> decide
  · intro lower higher level
    exact mono _ _ _

/-! ### Error codes of the global API -/

/-- C23: TUTK_ER_NoERROR is 0 and is not below zero; each of the four declared error
codes is below zero, so the test `return value < 0` holds for every declared error
and fails for success; the codes are pairwise distinct, and the error is recovered
from its code. -/
theorem C23_tutk_errors_separable_by_sign :
    TUTK_ER_NoERROR = 0 ∧ isErrorReturn TUTK_ER_NoERROR = false ∧
    (TUTK_ER_ALREADY_INITIALIZED < 0 ∧ TUTK_ER_INVALID_ARG < 0 ∧
      TUTK_ER_MEM_INSUFFICIENT < 0 ∧ TUTK_ER_INVALID_LICENSE_KEY < 0) ∧
    (∀ e : TUTKError, isErrorReturn e.toInt = true ∧ e.toInt ≠ TUTK_ER_NoERROR) ∧
    (∀ e f : TUTKError, e.toInt = f.toInt ↔ e = f) ∧
    (∀ e : TUTKError, TUTKError.ofInt e.toInt = some e) ∧
    TUTKError.ofInt TUTK_ER_NoERROR = none := by
  refine ⟨rfl, by decide, by decide, ?_, ?_, ?_, by decide⟩
  · intro e; cases e <;> decide
  · intro e f; cases e <;> cases f <;> decide
  · intro e; cases e <;> decide

/-! ### Sending a command -/

theorem le_nextPoll (poll t : Nat) : t ≤ nextPoll poll t := by
  unfold nextPoll
  split
  · exact Nat.le_refl t
  · rename_i hp
    have hpos : 0 < poll := Nat.pos_of_ne_zero hp
    have h1 := Nat.div_add_mod (t + poll - 1) poll
    have h2 := Nat.mod_lt (t + poll - 1) hpos
    rw [Nat.mul_comm]
    omega

theorem nextPoll_lt (poll t : Nat) (hpos : 0 < poll) : nextPoll poll t < t + poll := by
  unfold nextPoll
  rw [if_neg (Nat.pos_iff_ne_zero.1 hpos)]
  have h1 := Nat.div_mul_le_self (t + poll - 1) poll
  omega

theorem nextPoll_le (poll t : Nat) : nextPoll poll t ≤ t + poll := by
  rcases Nat.eq_zero_or_pos poll with h | h
  · subst h
    simp [nextPoll]
  · exact Nat.le_of_lt (nextPoll_lt poll t h)

/-- C20: for a bound client in an initialized module and every timeout T above 0,
Nebula_Client_Send_Command with no server response and no abort returns TIMEOUT at
a time between T and T plus one polling interval; and with the abort flag asserted
at a time t before T it returns Aborted at a time between t and t plus one polling
interval, strictly less when the interval is not 0, instead of waiting until T. -/
theorem C20_send_command_timeout_and_abort (c : NebulaClientCtx) (hbound : c.bound = true)
    (request : CString) (T poll_ms : Nat) (hT : 0 < T) :
    (Nebula_Client_Send_Command true (some c) (some request) true false T poll_ms none none
        = some ⟨.error (.code NEBULA_ER_TIMEOUT), nextPoll poll_ms T⟩ ∧
      T ≤ nextPoll poll_ms T ∧ nextPoll poll_ms T ≤ T + poll_ms) ∧
    (∀ t : Nat, t < T →
      Nebula_Client_Send_Command true (some c) (some request) true false T poll_ms none
          (some t) = some ⟨.error .Aborted, nextPoll poll_ms t⟩ ∧
      t ≤ nextPoll poll_ms t ∧ nextPoll poll_ms t ≤ t + poll_ms ∧
      (0 < poll_ms → nextPoll poll_ms t < t + poll_ms)) := by
  have hT0 : T ≠ 0 := Nat.pos_iff_ne_zero.1 hT
  refine ⟨⟨?_, le_nextPoll poll_ms T, nextPoll_le poll_ms T⟩, ?_⟩
  · simp [Nebula_Client_Send_Command, lifecycleCheck, hbound, awaitEvent, waitDeadline, hT0]
  · intro t ht
    refine ⟨?_, le_nextPoll poll_ms t, nextPoll_le poll_ms t, nextPoll_lt poll_ms t⟩
    have hle : t ≤ T := Nat.le_of_lt ht
    simp [Nebula_Client_Send_Command, lifecycleCheck, hbound, awaitEvent, waitDeadline, hT0,
      hle]

/-- C20 at a bound client with a timeout of 1000 ms and a polling interval of 50 ms:
without a response the call returns TIMEOUT at 1000 ms, and with the abort flag
asserted at 120 ms it returns Aborted at 150 ms. -/
theorem C20_send_command_timeout_and_abort_witness :
    Nebula_Client_Send_Command true
        (some ⟨"UDID0001".toList, some "k".toList, some "i".toList, some "s".toList⟩)
        (some "request".toList) true false 1000 50 none none
      = some ⟨.error (.code NEBULA_ER_TIMEOUT), nextPoll 50 1000⟩ ∧
    nextPoll 50 1000 = 1000 ∧
    Nebula_Client_Send_Command true
        (some ⟨"UDID0001".toList, some "k".toList, some "i".toList, some "s".toList⟩)
        (some "request".toList) true false 1000 50 none (some 120)
      = some ⟨.error .Aborted, nextPoll 50 120⟩ ∧
    nextPoll 50 120 = 150 :=
  ⟨(C20_send_command_timeout_and_abort
      ⟨"UDID0001".toList, some "k".toList, some "i".toList, some "s".toList⟩ rfl
      "request".toList 1000 50 (by decide)).1.1,
    by decide,
    ((C20_send_command_timeout_and_abort
      ⟨"UDID0001".toList, some "k".toList, some "i".toList, some "s".toList⟩ rfl
      "request".toList 1000 50 (by decide)).2 120 (by decide)).1,
    by decide⟩

/-- A response that comes in time is returned, at the first polling point after it. -/
theorem send_command_returns_response :
    (Nebula_Client_Send_Command true
        (some ⟨"UDID0001".toList, some "k".toList, some "i".toList, some "s".toList⟩)
        (some "request".toList) true false 1000 50 (some (120, .ok "done".toList))
        none).map (fun o => o.elapsed_ms) = some 150 := by
  decide

end ValiSPM
